import Mathlib

/-!
# Sakura.Native: 16-bit RGBA to 8-bit BGRA demotion and the CPUID probe

Shallow embedding of `src/Sakura.Native/img.cpp`, `CpuId.cpp` and `cpuid.h`.

* Memory is byte addressed. A buffer is a function from a byte offset (relative
  to the pointer handed to the routine) to the value of that cell; a read takes
  the cell modulo 256. The source and the destination are separate buffers.
* Pointers are byte offsets. The C code moves `uint16_t *` pointers, so
  `srcPtr + 8` there is `srcPtr + 16` here; every such place carries a remark.
* `int` arguments that the contract requires to be non-negative are `Nat`;
  the range of `int` appears as a hypothesis `srcSpan < 2 ^ 31`.
* x86 is little-endian: a multi-byte load or store puts the low byte first.
-/

namespace Sakura

/-! ## Memory -/

/-- A byte buffer, indexed by byte offset. -/
abbrev Mem := Nat → Nat

/-- One byte read from a buffer. -/
def readByte (m : Mem) (a : Nat) : Nat := m a % 256

/-- The store of the byte list `bs` at offset `a`: cell `a + k` receives `bs[k]`. -/
def writeBytes (m : Mem) (a : Nat) (bs : List Nat) : Mem :=
  fun p => if a ≤ p ∧ p < a + bs.length then bs.getD (p - a) 0 else m p

/-- The load `((uint64_t *)p)[0]` at byte offset `a`, little-endian. -/
def load64 (m : Mem) (a : Nat) : Nat :=
  readByte m a + readByte m (a + 1) * 2 ^ 8 + readByte m (a + 2) * 2 ^ 16
    + readByte m (a + 3) * 2 ^ 24 + readByte m (a + 4) * 2 ^ 32
    + readByte m (a + 5) * 2 ^ 40 + readByte m (a + 6) * 2 ^ 48
    + readByte m (a + 7) * 2 ^ 56

/-- The four bytes of a 32-bit word, low byte first. -/
def bytes32 (r : Nat) : List Nat :=
  [r % 256, (r >>> 8) % 256, (r >>> 16) % 256, (r >>> 24) % 256]

/-- The store `((uint32_t *)p)[0] = r` at byte offset `a`, little-endian. -/
def store32 (m : Mem) (a : Nat) (r : Nat) : Mem := writeBytes m a (bytes32 r)

/-! ## The scalar per-pixel expression (img.cpp 92-97 and its seven copies) -/

/-- The cast `(uint32_t)x`. -/
def u32 (x : Nat) : Nat := x % 2 ^ 32

/-- The 64-bit left shift `v << 8` on `uint64_t`. -/
def shl64 (v k : Nat) : Nat := (v <<< k) % 2 ^ 64

/-- The expression
`((uint32_t)(v >> 40) & 0xFF) | ((uint32_t)(v >> 16) & 0xFF00)
 | ((uint32_t)(v << 8) & 0xFF0000) | ((uint32_t)(v >> 32) & 0xFF000000)`. -/
def demotePixel (v : Nat) : Nat :=
  (u32 (v >>> 40) &&& 0x000000FF)
    ||| (u32 (v >>> 16) &&& 0x0000FF00)
    ||| (u32 (shl64 v 8) &&& 0x00FF0000)
    ||| (u32 (v >>> 32) &&& 0xFF000000)

/-- The 16-bit channel number `c` (0 = R, 1 = G, 2 = B, 3 = A) of a pixel word. -/
def channel (v c : Nat) : Nat := (v >>> (16 * c)) % 2 ^ 16

/-- The 64-bit pixel word with 16-bit channels R, G, B, A, in that order,
each low byte first. -/
def pixelWord (R G B A : Nat) : Nat := R + G * 2 ^ 16 + B * 2 ^ 32 + A * 2 ^ 48

/-- The 16-bit channel `c` (0 = R, 1 = G, 2 = B, 3 = A) of the source pixel
stored at byte offset `o`, low byte first. -/
def srcChannel (src : Mem) (o c : Nat) : Nat :=
  readByte src (o + 2 * c) + readByte src (o + 2 * c + 1) * 256

/-! ## Vector registers and the intrinsics used by the vectorized kernel -/

/-- The type `__m128i`: sixteen bytes, byte 0 first. -/
abbrev M128 := List Nat

/-- The intrinsic `_mm_set_epi8(e15, ..., e0)`: the arguments come highest
byte first; each `char` is kept as its byte value. -/
def _mm_set_epi8 (e15 e14 e13 e12 e11 e10 e9 e8 e7 e6 e5 e4 e3 e2 e1 e0 : Int) : M128 :=
  [e0, e1, e2, e3, e4, e5, e6, e7, e8, e9, e10, e11, e12, e13, e14, e15].map
    (fun e => (e % 256).toNat)

/-- The intrinsic `_mm_loadu_si128`: sixteen bytes from memory. -/
def _mm_loadu_si128 (m : Mem) (a : Nat) : M128 :=
  (List.range 16).map (fun k => readByte m (a + k))

/-- The intrinsic `_mm_loadl_epi64`: eight bytes from memory into the low half,
the high half zeroed. -/
def _mm_loadl_epi64 (m : Mem) (a : Nat) : M128 :=
  (List.range 8).map (fun k => readByte m (a + k)) ++ List.replicate 8 0

/-- The intrinsic `_mm_shuffle_epi8(a, b)` (PSHUFB): byte `i` of the result is 0
when bit 7 of `b[i]` is set and `a[b[i] & 15]` otherwise. -/
def _mm_shuffle_epi8 (a b : M128) : M128 :=
  (List.range 16).map
    (fun i => if b.getD i 0 &&& 0x80 ≠ 0 then 0 else a.getD (b.getD i 0 &&& 0x0F) 0)

/-- The intrinsic `_mm_or_si128`: bytewise or. -/
def _mm_or_si128 (a b : M128) : M128 := List.zipWith (fun x y => x ||| y) a b

/-- The intrinsic `_mm_storeu_si128`: all sixteen bytes to memory. -/
def _mm_storeu_si128 (m : Mem) (a : Nat) (v : M128) : Mem := writeBytes m a v

/-- The intrinsic `_mm_storeu_epi64` (AVX-512VL, `vmovdqu64 m128, xmm`): stores
128 bits, viewed as two packed 64-bit integers, to unaligned memory, that is
`MEM[a+127:a] := v[127:0]`. It is not `_mm_storeu_si64`/`_mm_storel_epi64`,
which store the low 64 bits only. -/
def _mm_storeu_epi64 (m : Mem) (a : Nat) (v : M128) : Mem := writeBytes m a v

/-- The intrinsic `_mm_storeu_epi32` (AVX-512VL, `vmovdqu32 m128, xmm`): stores
128 bits, viewed as four packed 32-bit integers, to unaligned memory. It is
not `_mm_storeu_si32`, which stores the low 32 bits only. -/
def _mm_storeu_epi32 (m : Mem) (a : Nat) (v : M128) : Mem := writeBytes m a v

/-- The constant `shuffler1` (img.cpp 14). -/
def shuffler1 : M128 :=
  _mm_set_epi8 (-1) (-1) (-1) (-1) (-1) (-1) (-1) (-1) 15 9 11 13 7 1 3 5

/-- The constant `shuffler2` (img.cpp 15). -/
def shuffler2 : M128 :=
  _mm_set_epi8 15 9 11 13 7 1 3 5 (-1) (-1) (-1) (-1) (-1) (-1) (-1) (-1)

/-! ## The kernels -/

/-- The variables a kernel carries along one row: the destination buffer and
the two running pointers (byte offsets). -/
structure RowState where
  dest : Mem
  destPtr : Nat
  srcPtr : Nat

/-- The loop `while (srcPtr < srcEnd)` of `DemoteImageInParallel` (img.cpp 22-40):
64 source bytes in, 32 destination bytes out per round. -/
def parallelLoop (src : Mem) (srcEnd : Nat) (s : RowState) : RowState :=
  if s.srcPtr < srcEnd then
    let v12 := _mm_loadu_si128 src s.srcPtr
    let v34 := _mm_loadu_si128 src (s.srcPtr + 16)  -- `srcPtr + 8` in uint16_t units
    let v56 := _mm_loadu_si128 src (s.srcPtr + 32)  -- `srcPtr + 16`
    let v78 := _mm_loadu_si128 src (s.srcPtr + 48)  -- `srcPtr + 24`
    let r12 := _mm_shuffle_epi8 v12 shuffler1
    let r34 := _mm_shuffle_epi8 v34 shuffler2
    let r56 := _mm_shuffle_epi8 v56 shuffler1
    let r78 := _mm_shuffle_epi8 v78 shuffler2
    let fused1 := _mm_or_si128 r12 r34
    let fused2 := _mm_or_si128 r56 r78
    let d1 := _mm_storeu_si128 s.dest s.destPtr fused1
    let d2 := _mm_storeu_si128 d1 (s.destPtr + 16) fused2
    parallelLoop src srcEnd ⟨d2, s.destPtr + 32, s.srcPtr + 64⟩  -- `srcPtr += 32`
  else s
termination_by srcEnd - s.srcPtr
decreasing_by simp_wf; omega

/-- The block `if (width & 4)` of `DemoteImageInParallel` (img.cpp 42-53). -/
def parallelTail4 (src : Mem) (s : RowState) : RowState :=
  let v12 := _mm_loadu_si128 src s.srcPtr
  let v34 := _mm_loadu_si128 src (s.srcPtr + 16)  -- `srcPtr + 8`
  let r12 := _mm_shuffle_epi8 v12 shuffler1
  let r34 := _mm_shuffle_epi8 v34 shuffler2
  let fused := _mm_or_si128 r12 r34
  ⟨_mm_storeu_si128 s.dest s.destPtr fused, s.destPtr + 16, s.srcPtr + 32⟩  -- `srcPtr += 16`

/-- The block `if (width & 2)` of `DemoteImageInParallel` (img.cpp 55-63). -/
def parallelTail2 (src : Mem) (s : RowState) : RowState :=
  let v12 := _mm_loadu_si128 src s.srcPtr
  let r12 := _mm_shuffle_epi8 v12 shuffler1
  ⟨_mm_storeu_epi64 s.dest s.destPtr r12, s.destPtr + 8, s.srcPtr + 16⟩  -- `srcPtr += 8`

/-- The block `if (width & 1)` of `DemoteImageInParallel` (img.cpp 65-70); the
pointers are not advanced. -/
def parallelTail1 (src : Mem) (s : RowState) : RowState :=
  let v1 := _mm_loadl_epi64 src s.srcPtr
  let r1 := _mm_shuffle_epi8 v1 shuffler1
  ⟨_mm_storeu_epi32 s.dest s.destPtr r1, s.destPtr, s.srcPtr⟩

/-- The 32-bit pattern of the `int` constant `~7`. -/
def notSeven : Nat := 0xFFFFFFF8

/-- The 32-bit pattern of the `int` constant `~3`. -/
def notThree : Nat := 0xFFFFFFFC

/-- One round of the `for` loop of `DemoteImageInParallel` (img.cpp 18-70): the
row whose destination starts at `destRowStart` and whose source starts at
`srcRowStart`. -/
def parallelRow (src : Mem) (width : Nat) (dest : Mem) (destRowStart srcRowStart : Nat) :
    Mem :=
  let s0 : RowState := ⟨dest, destRowStart, srcRowStart⟩
  let srcEnd := s0.srcPtr + (width &&& notSeven) * 4 * 2  -- uint16_t units: `* 4`
  let s1 := parallelLoop src srcEnd s0
  let s2 := if width &&& 4 ≠ 0 then parallelTail4 src s1 else s1
  let s3 := if width &&& 2 ≠ 0 then parallelTail2 src s2 else s2
  let s4 := if width &&& 1 ≠ 0 then parallelTail1 src s3 else s3
  s4.dest

/-- The loop `for (int y = 0; y < height; y++)` of `DemoteImageInParallel`, by
the number of rows still to do (img.cpp 17, 72-73). -/
def parallelRows (src : Mem) (width srcSpan destSpan : Nat) :
    Nat → Mem → Nat → Nat → Mem
  | 0, dest, _, _ => dest
  | n + 1, dest, destRowStart, srcRowStart =>
    parallelRows src width srcSpan destSpan n
      (parallelRow src width dest destRowStart srcRowStart)
      (destRowStart + destSpan) (srcRowStart + srcSpan)

/-- The function `DemoteImageInParallel` (img.cpp 9-75): the destination buffer
after the call. -/
def DemoteImageInParallel (dest src : Mem) (width height srcSpan destSpan : Nat) : Mem :=
  parallelRows src width srcSpan destSpan height dest 0 0

/-- The statement pair `v = ((uint64_t *)srcPtr)[k]; ((uint32_t *)destPtr)[k] = r`
with `r` the shift-and-mask expression of `v`. -/
def scalarPixel (src : Mem) (srcPtr destPtr k : Nat) (dest : Mem) : Mem :=
  store32 dest (destPtr + 4 * k) (demotePixel (load64 src (srcPtr + 8 * k)))

/-- The loop `while (srcPtr < srcEnd)` of `DemoteImageOldSchool` (img.cpp 87-123):
four pixels per round. -/
def oldSchoolLoop (src : Mem) (srcEnd : Nat) (s : RowState) : RowState :=
  if s.srcPtr < srcEnd then
    let d1 := scalarPixel src s.srcPtr s.destPtr 0 s.dest
    let d2 := scalarPixel src s.srcPtr s.destPtr 1 d1
    let d3 := scalarPixel src s.srcPtr s.destPtr 2 d2
    let d4 := scalarPixel src s.srcPtr s.destPtr 3 d3
    oldSchoolLoop src srcEnd ⟨d4, s.destPtr + 16, s.srcPtr + 32⟩  -- `srcPtr += 16`
  else s
termination_by srcEnd - s.srcPtr
decreasing_by simp_wf; omega

/-- The block `if (width & 2)` of `DemoteImageOldSchool` (img.cpp 125-145). -/
def oldSchoolTail2 (src : Mem) (s : RowState) : RowState :=
  let d1 := scalarPixel src s.srcPtr s.destPtr 0 s.dest
  let d2 := scalarPixel src s.srcPtr s.destPtr 1 d1
  ⟨d2, s.destPtr + 8, s.srcPtr + 16⟩  -- `srcPtr += 8`

/-- The block `if (width & 1)` of `DemoteImageOldSchool` (img.cpp 147-156). -/
def oldSchoolTail1 (src : Mem) (s : RowState) : RowState :=
  ⟨scalarPixel src s.srcPtr s.destPtr 0 s.dest, s.destPtr, s.srcPtr⟩

/-- One round of the `for` loop of `DemoteImageOldSchool` (img.cpp 83-156). -/
def oldSchoolRow (src : Mem) (width : Nat) (dest : Mem) (destRowStart srcRowStart : Nat) :
    Mem :=
  let s0 : RowState := ⟨dest, destRowStart, srcRowStart⟩
  let srcEnd := s0.srcPtr + (width &&& notThree) * 4 * 2  -- uint16_t units: `* 4`
  let s1 := oldSchoolLoop src srcEnd s0
  let s2 := if width &&& 2 ≠ 0 then oldSchoolTail2 src s1 else s1
  let s3 := if width &&& 1 ≠ 0 then oldSchoolTail1 src s2 else s2
  s3.dest

/-- The loop `for (int y = 0; y < height; y++)` of `DemoteImageOldSchool`, by the
number of rows still to do (img.cpp 82, 158-159). -/
def oldSchoolRows (src : Mem) (width srcSpan destSpan : Nat) :
    Nat → Mem → Nat → Nat → Mem
  | 0, dest, _, _ => dest
  | n + 1, dest, destRowStart, srcRowStart =>
    oldSchoolRows src width srcSpan destSpan n
      (oldSchoolRow src width dest destRowStart srcRowStart)
      (destRowStart + destSpan) (srcRowStart + srcSpan)

/-- The function `DemoteImageOldSchool` (img.cpp 77-161): the destination buffer
after the call. -/
def DemoteImageOldSchool (dest src : Mem) (width height srcSpan destSpan : Nat) : Mem :=
  oldSchoolRows src width srcSpan destSpan height dest 0 0


/-! ## The CPUID probe (CpuId.cpp, cpuid.h) -/

/-- The struct `CpuId::CpuIdResult`: the four registers, each `int` kept as its
32-bit pattern. -/
structure CpuIdResult where
  eax : Nat
  ebx : Nat
  ecx : Nat
  edx : Nat
  deriving DecidableEq

/-- The processor: what the CPUID instruction returns for a leaf (EAX) and a
sub-leaf (ECX). -/
abbrev Cpu := Nat → Nat → CpuIdResult

/-- The intrinsic `__cpuidex(out, function_id, subfunction_id)`: the four
result registers, 32 bits each. -/
def __cpuidex (cpu : Cpu) (function_id subfunction_id : Nat) : CpuIdResult :=
  let r := cpu (function_id % 2 ^ 32) (subfunction_id % 2 ^ 32)
  ⟨r.eax % 2 ^ 32, r.ebx % 2 ^ 32, r.ecx % 2 ^ 32, r.edx % 2 ^ 32⟩

/-- The intrinsic `__cpuid(out, function_id)`: CPUID with sub-leaf 0. -/
def __cpuid (cpu : Cpu) (function_id : Nat) : CpuIdResult := __cpuidex cpu function_id 0

/-- The loop `for (int i = 0; i <= n; ++i) { __cpuidex(&r, i, 0); arr[i] = r; }`
(CpuId.cpp 13-17 and 48-52, the same text twice): the filled array. -/
def queryLeaves (cpu : Cpu) (n : Nat) : List CpuIdResult :=
  (List.range (n + 1)).map (fun i => __cpuidex cpu i 0)

/-- The in-memory bytes of a `CpuIdResult`: EAX, EBX, ECX, EDX, low byte first. -/
def CpuIdResult.bytes (r : CpuIdResult) : List Nat :=
  bytes32 r.eax ++ bytes32 r.ebx ++ bytes32 r.ecx ++ bytes32 r.edx

/-- The element `arr[i]` of a filled register array. -/
def leafAt (arr : List CpuIdResult) (i : Nat) : CpuIdResult := arr.getD i ⟨0, 0, 0, 0⟩

/-- A copy of the bytes `bs` into the buffer `buf` at offset `off`
(`memcpy(buf + off, bs, n)` or `*(int *)(buf + off) = x`). -/
def copyInto (buf : List Nat) (off : Nat) (bs : List Nat) : List Nat :=
  buf.take off ++ bs ++ buf.drop (off + bs.length)

/-- The C string held in a `char` buffer: the bytes before the first zero. -/
def cstr (buf : List Nat) : List Nat := buf.takeWhile (fun b => b != 0)

/-- The bytes of a string literal. -/
def literal (s : String) : List Nat := s.toList.map Char.toNat

/-- The test `!strcmp(buf, lit)`. -/
def strEq (buf : List Nat) (lit : String) : Bool := cstr buf == literal lit

/-- The members the constructor does not initialise unless the leaf exists:
what the fresh object holds in them. -/
structure Uninit where
  function_1_ecx : Nat
  function_1_edx : Nat
  function_7_ebx : Nat
  function_7_ecx : Nat
  extendedFunction_1_ecx : Nat
  extendedFunction_1_edx : Nat
  deriving DecidableEq

/-- The class `CpuId` (cpuid.h 23-34). -/
structure CpuId where
  numIds : Nat
  numExtendedIds : Nat
  vendor : List Nat
  brand : List Nat
  isIntel : Bool
  isAMD : Bool
  function_1_ecx : Nat
  function_1_edx : Nat
  function_7_ebx : Nat
  function_7_ecx : Nat
  extendedFunction_1_ecx : Nat
  extendedFunction_1_edx : Nat
  data : List CpuIdResult
  extendedData : List CpuIdResult
  deriving DecidableEq

/-- The largest `int`. -/
def INT_MAX : Nat := 2 ^ 31 - 1

/-- The constructor `CpuId::CpuId()` (CpuId.cpp 4-70) on the processor `cpu`,
the fresh object holding `u`. The result is `none` where the C++ has no defined
result: leaf 0 reporting a negative `int` count (then `data[0]` is read without
having been written) or a count of `INT_MAX` in either range (then `i <= n`
never fails). -/
def CpuId.ctor (cpu : Cpu) (u : Uninit) : Option CpuId :=
  let cpuIdResult := __cpuid cpu 0
  let numIds := cpuIdResult.eax
  if INT_MAX ≤ numIds then none else
  let data := queryLeaves cpu numIds
  let vendor := List.replicate 64 0
  let vendor := copyInto vendor 0 (bytes32 (leafAt data 0).ebx)
  let vendor := copyInto vendor 4 (bytes32 (leafAt data 0).edx)
  let vendor := copyInto vendor 8 (bytes32 (leafAt data 0).ecx)
  let vendor := vendor.set 63 0
  let isIntel := strEq vendor "GenuineIntel"
  let isAMD := strEq vendor "AuthenticAMD"
  let function_1_ecx := if numIds ≥ 1 then (leafAt data 1).ecx else u.function_1_ecx
  let function_1_edx := if numIds ≥ 1 then (leafAt data 1).edx else u.function_1_edx
  let function_7_ebx := if numIds ≥ 7 then (leafAt data 7).ebx else u.function_7_ebx
  let function_7_ecx := if numIds ≥ 7 then (leafAt data 7).ecx else u.function_7_ecx
  let cpuIdResult := __cpuid cpu 0x80000000
  let numExtendedIds := cpuIdResult.eax &&& 0x7FFFFFFF
  if INT_MAX ≤ numExtendedIds then none else
  let extendedData := queryLeaves cpu numExtendedIds
  let extendedFunction_1_ecx :=
    if numExtendedIds ≥ 1 then (leafAt extendedData 1).ecx else u.extendedFunction_1_ecx
  let extendedFunction_1_edx :=
    if numExtendedIds ≥ 1 then (leafAt extendedData 1).edx else u.extendedFunction_1_edx
  let brand := List.replicate 64 0
  let brand :=
    if numExtendedIds ≥ 4 then
      let brand := copyInto brand 0 (leafAt extendedData 2).bytes
      let brand := copyInto brand 16 (leafAt extendedData 3).bytes
      copyInto brand 32 (leafAt extendedData 4).bytes
    else brand
  let brand := brand.set 63 0
  some
    { numIds := numIds, numExtendedIds := numExtendedIds, vendor := vendor, brand := brand,
      isIntel := isIntel, isAMD := isAMD,
      function_1_ecx := function_1_ecx, function_1_edx := function_1_edx,
      function_7_ebx := function_7_ebx, function_7_ecx := function_7_ecx,
      extendedFunction_1_ecx := extendedFunction_1_ecx,
      extendedFunction_1_edx := extendedFunction_1_edx,
      data := data, extendedData := extendedData }

/-! ## The capability queries (cpuid.h 45-106) -/

/-- The query `HasSSE3` (cpuid.h 45): `(function_1_ecx & (1 << 0)) != 0`. -/
def CpuId.HasSSE3 (s : CpuId) : Bool := (s.function_1_ecx &&& (1 <<< 0)) != 0

/-- The query `HasPCLMULQDQ` (cpuid.h 46): `(function_1_ecx & (1 << 1)) != 0`. -/
def CpuId.HasPCLMULQDQ (s : CpuId) : Bool := (s.function_1_ecx &&& (1 <<< 1)) != 0

/-- The query `HasMONITOR` (cpuid.h 47): `(function_1_ecx & (1 << 3)) != 0`. -/
def CpuId.HasMONITOR (s : CpuId) : Bool := (s.function_1_ecx &&& (1 <<< 3)) != 0

/-- The query `HasSSSE3` (cpuid.h 48): `(function_1_ecx & (1 << 9)) != 0`. -/
def CpuId.HasSSSE3 (s : CpuId) : Bool := (s.function_1_ecx &&& (1 <<< 9)) != 0

/-- The query `HasFMA` (cpuid.h 49): `(function_1_ecx & (1 << 12)) != 0`. -/
def CpuId.HasFMA (s : CpuId) : Bool := (s.function_1_ecx &&& (1 <<< 12)) != 0

/-- The query `HasCMPXCHG16B` (cpuid.h 50): `(function_1_ecx & (1 << 13)) != 0`. -/
def CpuId.HasCMPXCHG16B (s : CpuId) : Bool := (s.function_1_ecx &&& (1 <<< 13)) != 0

/-- The query `HasSSE41` (cpuid.h 51): `(function_1_ecx & (1 << 19)) != 0`. -/
def CpuId.HasSSE41 (s : CpuId) : Bool := (s.function_1_ecx &&& (1 <<< 19)) != 0

/-- The query `HasSSE42` (cpuid.h 52): `(function_1_ecx & (1 << 20)) != 0`. -/
def CpuId.HasSSE42 (s : CpuId) : Bool := (s.function_1_ecx &&& (1 <<< 20)) != 0

/-- The query `HasMOVBE` (cpuid.h 53): `(function_1_ecx & (1 << 22)) != 0`. -/
def CpuId.HasMOVBE (s : CpuId) : Bool := (s.function_1_ecx &&& (1 <<< 22)) != 0

/-- The query `HasPOPCNT` (cpuid.h 54): `(function_1_ecx & (1 << 23)) != 0`. -/
def CpuId.HasPOPCNT (s : CpuId) : Bool := (s.function_1_ecx &&& (1 <<< 23)) != 0

/-- The query `HasAES` (cpuid.h 55): `(function_1_ecx & (1 << 25)) != 0`. -/
def CpuId.HasAES (s : CpuId) : Bool := (s.function_1_ecx &&& (1 <<< 25)) != 0

/-- The query `HasXSAVE` (cpuid.h 56): `(function_1_ecx & (1 << 26)) != 0`. -/
def CpuId.HasXSAVE (s : CpuId) : Bool := (s.function_1_ecx &&& (1 <<< 26)) != 0

/-- The query `HasOSXSAVE` (cpuid.h 57): `(function_1_ecx & (1 << 27)) != 0`. -/
def CpuId.HasOSXSAVE (s : CpuId) : Bool := (s.function_1_ecx &&& (1 <<< 27)) != 0

/-- The query `HasAVX` (cpuid.h 58): `(function_1_ecx & (1 << 28)) != 0`. -/
def CpuId.HasAVX (s : CpuId) : Bool := (s.function_1_ecx &&& (1 <<< 28)) != 0

/-- The query `HasF16C` (cpuid.h 59): `(function_1_ecx & (1 << 29)) != 0`. -/
def CpuId.HasF16C (s : CpuId) : Bool := (s.function_1_ecx &&& (1 <<< 29)) != 0

/-- The query `HasRDRAND` (cpuid.h 60): `(function_1_ecx & (1 << 30)) != 0`. -/
def CpuId.HasRDRAND (s : CpuId) : Bool := (s.function_1_ecx &&& (1 <<< 30)) != 0

/-- The query `HasMSR` (cpuid.h 62): `(function_1_edx & (1 << 5)) != 0`. -/
def CpuId.HasMSR (s : CpuId) : Bool := (s.function_1_edx &&& (1 <<< 5)) != 0

/-- The query `HasCX8` (cpuid.h 63): `(function_1_edx & (1 << 8)) != 0`. -/
def CpuId.HasCX8 (s : CpuId) : Bool := (s.function_1_edx &&& (1 <<< 8)) != 0

/-- The query `HasSEP` (cpuid.h 64): `(function_1_edx & (1 << 11)) != 0`. -/
def CpuId.HasSEP (s : CpuId) : Bool := (s.function_1_edx &&& (1 <<< 11)) != 0

/-- The query `HasCMOV` (cpuid.h 65): `(function_1_edx & (1 << 15)) != 0`. -/
def CpuId.HasCMOV (s : CpuId) : Bool := (s.function_1_edx &&& (1 <<< 15)) != 0

/-- The query `HasCLFSH` (cpuid.h 66): `(function_1_edx & (1 << 19)) != 0`. -/
def CpuId.HasCLFSH (s : CpuId) : Bool := (s.function_1_edx &&& (1 <<< 19)) != 0

/-- The query `HasMMX` (cpuid.h 67): `(function_1_edx & (1 << 23)) != 0`. -/
def CpuId.HasMMX (s : CpuId) : Bool := (s.function_1_edx &&& (1 <<< 23)) != 0

/-- The query `HasFXSR` (cpuid.h 68): `(function_1_edx & (1 << 24)) != 0`. -/
def CpuId.HasFXSR (s : CpuId) : Bool := (s.function_1_edx &&& (1 <<< 24)) != 0

/-- The query `HasSSE` (cpuid.h 69): `(function_1_edx & (1 << 25)) != 0`. -/
def CpuId.HasSSE (s : CpuId) : Bool := (s.function_1_edx &&& (1 <<< 25)) != 0

/-- The query `HasSSE2` (cpuid.h 70): `(function_1_edx & (1 << 26)) != 0`. -/
def CpuId.HasSSE2 (s : CpuId) : Bool := (s.function_1_edx &&& (1 <<< 26)) != 0

/-- The query `HasFSGSBASE` (cpuid.h 72): `(function_7_ebx & (1 << 0)) != 0`. -/
def CpuId.HasFSGSBASE (s : CpuId) : Bool := (s.function_7_ebx &&& (1 <<< 0)) != 0

/-- The query `HasBMI1` (cpuid.h 73): `(function_7_ebx & (1 << 3)) != 0`. -/
def CpuId.HasBMI1 (s : CpuId) : Bool := (s.function_7_ebx &&& (1 <<< 3)) != 0

/-- The query `HasHLE` (cpuid.h 74): `(isIntel && function_7_ebx & (1 << 4)) != 0`, where
`&` binds tighter than `&&`. -/
def CpuId.HasHLE (s : CpuId) : Bool :=
  (s.isIntel && ((s.function_7_ebx &&& (1 <<< 4)) != 0)) != false

/-- The query `HasAVX2` (cpuid.h 75): `(function_7_ebx & (1 << 5)) != 0`. -/
def CpuId.HasAVX2 (s : CpuId) : Bool := (s.function_7_ebx &&& (1 <<< 5)) != 0

/-- The query `HasBMI2` (cpuid.h 76): `(function_7_ebx & (1 << 8)) != 0`. -/
def CpuId.HasBMI2 (s : CpuId) : Bool := (s.function_7_ebx &&& (1 <<< 8)) != 0

/-- The query `HasERMS` (cpuid.h 77): `(function_7_ebx & (1 << 9)) != 0`. -/
def CpuId.HasERMS (s : CpuId) : Bool := (s.function_7_ebx &&& (1 <<< 9)) != 0

/-- The query `HasINVPCID` (cpuid.h 78): `(function_7_ebx & (1 << 10)) != 0`. -/
def CpuId.HasINVPCID (s : CpuId) : Bool := (s.function_7_ebx &&& (1 <<< 10)) != 0

/-- The query `HasRTM` (cpuid.h 79): `(isIntel && function_7_ebx & (1 << 11)) != 0`, where
`&` binds tighter than `&&`. -/
def CpuId.HasRTM (s : CpuId) : Bool :=
  (s.isIntel && ((s.function_7_ebx &&& (1 <<< 11)) != 0)) != false

/-- The query `HasAVX512F` (cpuid.h 80): `(function_7_ebx & (1 << 16)) != 0`. -/
def CpuId.HasAVX512F (s : CpuId) : Bool := (s.function_7_ebx &&& (1 <<< 16)) != 0

/-- The query `HasRDSEED` (cpuid.h 81): `(function_7_ebx & (1 << 18)) != 0`. -/
def CpuId.HasRDSEED (s : CpuId) : Bool := (s.function_7_ebx &&& (1 <<< 18)) != 0

/-- The query `HasADX` (cpuid.h 82): `(function_7_ebx & (1 << 19)) != 0`. -/
def CpuId.HasADX (s : CpuId) : Bool := (s.function_7_ebx &&& (1 <<< 19)) != 0

/-- The query `HasAVX512IFMA` (cpuid.h 83): `(function_7_ebx & (1 << 21)) != 0`. -/
def CpuId.HasAVX512IFMA (s : CpuId) : Bool := (s.function_7_ebx &&& (1 <<< 21)) != 0

/-- The query `HasAVX512PF` (cpuid.h 84): `(function_7_ebx & (1 << 26)) != 0`. -/
def CpuId.HasAVX512PF (s : CpuId) : Bool := (s.function_7_ebx &&& (1 <<< 26)) != 0

/-- The query `HasAVX512ER` (cpuid.h 85): `(function_7_ebx & (1 << 27)) != 0`. -/
def CpuId.HasAVX512ER (s : CpuId) : Bool := (s.function_7_ebx &&& (1 <<< 27)) != 0

/-- The query `HasAVX512CD` (cpuid.h 86): `(function_7_ebx & (1 << 28)) != 0`. -/
def CpuId.HasAVX512CD (s : CpuId) : Bool := (s.function_7_ebx &&& (1 <<< 28)) != 0

/-- The query `HasAVX512BW` (cpuid.h 87): `(function_7_ebx & (1 << 30)) != 0`. -/
def CpuId.HasAVX512BW (s : CpuId) : Bool := (s.function_7_ebx &&& (1 <<< 30)) != 0

/-- The query `HasAVX512VL` (cpuid.h 88): `(function_7_ebx & (1 << 31)) != 0`. -/
def CpuId.HasAVX512VL (s : CpuId) : Bool := (s.function_7_ebx &&& (1 <<< 31)) != 0

/-- The query `HasSHA` (cpuid.h 89): `(function_7_ebx & (1 << 29)) != 0`. -/
def CpuId.HasSHA (s : CpuId) : Bool := (s.function_7_ebx &&& (1 <<< 29)) != 0

/-- The query `HasPREFETCHWT1` (cpuid.h 91): `(function_7_ecx & (1 << 0)) != 0`. -/
def CpuId.HasPREFETCHWT1 (s : CpuId) : Bool := (s.function_7_ecx &&& (1 <<< 0)) != 0

/-- The query `HasAVX512VBMI` (cpuid.h 92): `(function_7_ecx & (1 << 1)) != 0`. -/
def CpuId.HasAVX512VBMI (s : CpuId) : Bool := (s.function_7_ecx &&& (1 <<< 1)) != 0

/-- The query `HasAVX512VBMI2` (cpuid.h 93): `(function_7_ecx & (1 << 6)) != 0`. -/
def CpuId.HasAVX512VBMI2 (s : CpuId) : Bool := (s.function_7_ecx &&& (1 <<< 6)) != 0

/-- The query `HasLAHF` (cpuid.h 95): `(extendedFunction_1_ecx & (1 << 0)) != 0`. -/
def CpuId.HasLAHF (s : CpuId) : Bool := (s.extendedFunction_1_ecx &&& (1 <<< 0)) != 0

/-- The query `HasLZCNT` (cpuid.h 96): `(isIntel && extendedFunction_1_ecx & (1 << 5)) != 0`, where
`&` binds tighter than `&&`. -/
def CpuId.HasLZCNT (s : CpuId) : Bool :=
  (s.isIntel && ((s.extendedFunction_1_ecx &&& (1 <<< 5)) != 0)) != false

/-- The query `HasABM` (cpuid.h 97): `(isAMD && extendedFunction_1_ecx & (1 << 5)) != 0`, where
`&` binds tighter than `&&`. -/
def CpuId.HasABM (s : CpuId) : Bool :=
  (s.isAMD && ((s.extendedFunction_1_ecx &&& (1 <<< 5)) != 0)) != false

/-- The query `HasSSE4a` (cpuid.h 98): `(isAMD && extendedFunction_1_ecx & (1 << 6)) != 0`, where
`&` binds tighter than `&&`. -/
def CpuId.HasSSE4a (s : CpuId) : Bool :=
  (s.isAMD && ((s.extendedFunction_1_ecx &&& (1 <<< 6)) != 0)) != false

/-- The query `HasXOP` (cpuid.h 99): `(isAMD && extendedFunction_1_ecx & (1 << 11)) != 0`, where
`&` binds tighter than `&&`. -/
def CpuId.HasXOP (s : CpuId) : Bool :=
  (s.isAMD && ((s.extendedFunction_1_ecx &&& (1 <<< 11)) != 0)) != false

/-- The query `HasTBM` (cpuid.h 100): `(isAMD && extendedFunction_1_ecx & (1 << 21)) != 0`, where
`&` binds tighter than `&&`. -/
def CpuId.HasTBM (s : CpuId) : Bool :=
  (s.isAMD && ((s.extendedFunction_1_ecx &&& (1 <<< 21)) != 0)) != false

/-- The query `HasSYSCALL` (cpuid.h 102): `(isIntel && extendedFunction_1_edx & (1 << 11)) != 0`, where
`&` binds tighter than `&&`. -/
def CpuId.HasSYSCALL (s : CpuId) : Bool :=
  (s.isIntel && ((s.extendedFunction_1_edx &&& (1 <<< 11)) != 0)) != false

/-- The query `HasMMXEXT` (cpuid.h 103): `(isAMD && extendedFunction_1_edx & (1 << 22)) != 0`, where
`&` binds tighter than `&&`. -/
def CpuId.HasMMXEXT (s : CpuId) : Bool :=
  (s.isAMD && ((s.extendedFunction_1_edx &&& (1 <<< 22)) != 0)) != false

/-- The query `HasRDTSCP` (cpuid.h 104): `(isIntel && extendedFunction_1_edx & (1 << 27)) != 0`, where
`&` binds tighter than `&&`. -/
def CpuId.HasRDTSCP (s : CpuId) : Bool :=
  (s.isIntel && ((s.extendedFunction_1_edx &&& (1 <<< 27)) != 0)) != false

/-- The query `Has3DNOWEXT` (cpuid.h 105): `(isAMD && extendedFunction_1_edx & (1 << 30)) != 0`, where
`&` binds tighter than `&&`. -/
def CpuId.Has3DNOWEXT (s : CpuId) : Bool :=
  (s.isAMD && ((s.extendedFunction_1_edx &&& (1 <<< 30)) != 0)) != false

/-- The query `Has3DNOW` (cpuid.h 106): `(isAMD && extendedFunction_1_edx & (1 << 31)) != 0`, where
`&` binds tighter than `&&`. -/
def CpuId.Has3DNOW (s : CpuId) : Bool :=
  (s.isAMD && ((s.extendedFunction_1_edx &&& (1 <<< 31)) != 0)) != false

/-! ## The dispatcher -/

/-- The function `DemoteImage16To8` (img.cpp 166-177); `s` is the snapshot that
`CpuId::Instance()` hands back. -/
def DemoteImage16To8 (s : CpuId) (dest src : Mem) (width height srcSpan destSpan : Nat) :
    Mem :=
  if s.HasAVX then DemoteImageInParallel dest src width height srcSpan destSpan
  else DemoteImageOldSchool dest src width height srcSpan destSpan

/-! ## Example inputs -/

/-- An example processor: vendor "GenuineIntel", base leaves 0..7, AVX and SSSE3
reported in leaf 1, extended leaves 0x80000000..0x80000004, LAHF reported in
leaf 0x80000001, a brand string in leaves 0x80000002..0x80000004. -/
def exampleCpu : Cpu := fun leaf _ =>
  if leaf = 0 then ⟨7, 0x756E6547, 0x6C65746E, 0x49656E69⟩
  else if leaf = 1 then ⟨0x000906EA, 0, 0x10000200, 0x04000000⟩
  else if leaf = 2 then ⟨0x76036301, 0x00F0B5FF, 0, 0x00C30000⟩
  else if leaf = 0x80000000 then ⟨0x80000004, 0, 0, 0⟩
  else if leaf = 0x80000001 then ⟨0, 0, 0x00000021, 0x08000800⟩
  else if leaf = 0x80000002 then ⟨0x65746E49, 0x2952286C, 0x726F4320, 0x4D542865⟩
  else if leaf = 0x80000003 then ⟨0x37692029, 0x3037382D, 0x43204B30, 0x40205550⟩
  else if leaf = 0x80000004 then ⟨0x372E3320, 0x7A484730, 0, 0⟩
  else ⟨0, 0, 0, 0⟩

/-- An example content of the uninitialised members. -/
def exampleUninit : Uninit := ⟨0, 0, 0, 0, 0, 0⟩

/-- A snapshot with every member zero. -/
def zeroSnapshot : CpuId :=
  { numIds := 0, numExtendedIds := 0, vendor := List.replicate 64 0,
    brand := List.replicate 64 0, isIntel := false, isAMD := false,
    function_1_ecx := 0, function_1_edx := 0, function_7_ebx := 0, function_7_ecx := 0,
    extendedFunction_1_ecx := 0, extendedFunction_1_edx := 0,
    data := [⟨0, 0, 0, 0⟩], extendedData := [⟨0, 0, 0, 0⟩] }

/-- The snapshot constructed on the example processor. -/
def exampleSnapshot : CpuId := (CpuId.ctor exampleCpu exampleUninit).getD zeroSnapshot

/-- An example source buffer: the byte at offset `a` is `7 * a + 3` mod 256. -/
def exampleSrc : Mem := fun a => 7 * a + 3

/-- An example destination buffer: every byte is 0xFF before the call. -/
def exampleDest : Mem := fun _ => 0xFF

/-- An example processor of an unlisted vendor ("CentaurHauls") with base
leaves 0..1 and no extended leaf beyond 0x80000000. -/
def plainCpu : Cpu := fun leaf _ =>
  if leaf = 0 then ⟨1, 0x746E6543, 0x736C7561, 0x48727561⟩
  else if leaf = 1 then ⟨0x000006F2, 0, 0xFFFFFFFF, 0xFFFFFFFF⟩
  else if leaf = 0x80000000 then ⟨0x80000000, 0, 0, 0⟩
  else ⟨0, 0, 0, 0⟩

/-- An example content of the uninitialised members: all ones. -/
def onesUninit : Uninit :=
  ⟨0xFFFFFFFF, 0xFFFFFFFF, 0xFFFFFFFF, 0xFFFFFFFF, 0xFFFFFFFF, 0xFFFFFFFF⟩

/-- The snapshot constructed on `plainCpu`, the fresh object holding all-ones
registers. -/
def plainSnapshot : CpuId := (CpuId.ctor plainCpu onesUninit).getD zeroSnapshot

/-! ## Auxiliary definitions for the proofs -/

/-- Output byte `j` of a row whose source starts at `sp`. -/
def pix (src : Mem) (sp j : Nat) : Nat :=
  readByte src (sp + 8 * (j / 4) + [5, 3, 1, 7].getD (j % 4) 0)

/-- The destination buffer once `c` pixels of the row at `dp` (source at `sp`)
are converted and `ov` zero bytes lie behind them; all other bytes are those of
`dest`. -/
def rowImage (src dest : Mem) (dp sp c ov : Nat) : Mem :=
  fun p => if p < dp then dest p else if p < dp + 4 * c then pix src sp (p - dp)
    else if p < dp + 4 * c + ov then 0 else dest p

/-- The bytes a store puts down: `4 * n` converted bytes of the pixels from
source offset `a` on, then `z` zero bytes. -/
def chunk (src : Mem) (a n z : Nat) : List Nat :=
  (List.range (4 * n)).map (pix src a) ++ List.replicate z 0

/-- The state of a row after `c` pixels, the last store having left `ov` zero
bytes behind the converted ones. -/
def RowAt (src dest : Mem) (dp sp c ov : Nat) (s : RowState) : Prop :=
  s.dest = rowImage src dest dp sp c ov ∧ s.destPtr = dp + 4 * c ∧ s.srcPtr = sp + 8 * c

/-- The zero bytes the vectorized kernel leaves behind the `4 * width` converted
bytes of a row. -/
def overrun (width : Nat) : Nat :=
  if width % 2 = 1 then 12 else if width % 4 = 2 then 8 else 0

/-! ## The singleton (CpuId.cpp 78-85) -/

/-- The identification queries the constructor issues, in order, as (leaf,
sub-leaf) pairs: `__cpuid(0)`, the loop over `0..numIds`, `__cpuid(0x80000000)`,
the loop over `0..numExtendedIds` (CpuId.cpp 9, 13-17, 44, 48-52). -/
def CpuId.ctorQueries (cpu : Cpu) : List (Nat × Nat) :=
  let numIds := (__cpuid cpu 0).eax
  let numExtendedIds := (__cpuid cpu 0x80000000).eax &&& 0x7FFFFFFF
  [(0, 0)] ++ (List.range (numIds + 1)).map (fun i => (i, 0))
    ++ [(0x80000000, 0)] ++ (List.range (numExtendedIds + 1)).map (fun i => (i, 0))

/-- The function `CpuId::Instance()` over the explicit state `inst`, the value
of the static pointer `instance` (`none` is `nullptr`, the value the pointer
has at program start). The result is the snapshot returned, the state after the
call and the identification queries issued during the call; `u` is what the
freshly allocated object holds when this call constructs one. -/
def CpuId.Instance (cpu : Cpu) (u : Uninit) (inst : Option CpuId) :
    Option (CpuId × Option CpuId × List (Nat × Nat)) :=
  match inst with
  | none =>
    match CpuId.ctor cpu u with
    | none => none
    | some s => some (s, some s, CpuId.ctorQueries cpu)
  | some s => some (s, some s, [])

/-- A run of `n` consecutive calls of `CpuId::Instance()` from the state `inst`:
the snapshots returned, the final state and all queries issued. -/
def CpuId.InstanceCalls (cpu : Cpu) (u : Uninit) :
    Nat → Option CpuId → Option (List CpuId × Option CpuId × List (Nat × Nat))
  | 0, inst => some ([], inst, [])
  | n + 1, inst =>
    match CpuId.Instance cpu u inst with
    | none => none
    | some (s, inst1, q1) =>
      match CpuId.InstanceCalls cpu u n inst1 with
      | none => none
      | some (ss, inst2, q2) => some (s :: ss, inst2, q1 ++ q2)

/-! ## Further example inputs -/

/-- An example processor that reports AVX (leaf-1 ECX bit 28) and not SSSE3
(bit 9). -/
def avxOnlyCpu : Cpu := fun leaf _ =>
  if leaf = 0 then ⟨1, 0x756E6547, 0x6C65746E, 0x49656E69⟩
  else if leaf = 1 then ⟨0x000206A7, 0, 0x10000000, 0x04000000⟩
  else if leaf = 0x80000000 then ⟨0x80000000, 0, 0, 0⟩
  else ⟨0, 0, 0, 0⟩

/-- The snapshot constructed on `avxOnlyCpu`. -/
def avxOnlySnapshot : CpuId := (CpuId.ctor avxOnlyCpu exampleUninit).getD zeroSnapshot

/-- An example processor whose highest base leaf is 0 and whose extended count
is 0. -/
def bareCpu : Cpu := fun leaf _ =>
  if leaf = 0 then ⟨0, 0x756E6547, 0x6C65746E, 0x49656E69⟩
  else if leaf = 0x80000000 then ⟨0x80000000, 0, 0, 0⟩
  else ⟨0, 0, 0, 0⟩

/-- The snapshot constructed on `bareCpu`, the fresh object holding all-ones
registers. -/
def bareSnapshot : CpuId := (CpuId.ctor bareCpu onesUninit).getD zeroSnapshot

/-- The value `((uint64_t *)p)[0]` of eight bytes held in a list, low byte
first. -/
def le64 (bs : List Nat) : Nat :=
  bs.getD 0 0 + bs.getD 1 0 * 2 ^ 8 + bs.getD 2 0 * 2 ^ 16 + bs.getD 3 0 * 2 ^ 24
    + bs.getD 4 0 * 2 ^ 32 + bs.getD 5 0 * 2 ^ 40 + bs.getD 6 0 * 2 ^ 48
    + bs.getD 7 0 * 2 ^ 56

/-- An example 16-byte chunk: the pixel of the specification's example
(R=0x1234, G=0xABCD, B=0x00FF, A=0xFFFF) and a second pixel. -/
def exampleChunk1 : M128 :=
  [0x34, 0x12, 0xCD, 0xAB, 0xFF, 0x00, 0xFF, 0xFF, 0x01, 0x02, 0x03, 0x04, 0x05, 0x06, 0x07, 0x08]

/-- A second example 16-byte chunk. -/
def exampleChunk2 : M128 :=
  [0x10, 0x11, 0x12, 0x13, 0x14, 0x15, 0x16, 0x17, 0x18, 0x19, 0x1A, 0x1B, 0x1C, 0x1D, 0x1E, 0x1F]

/-! ## The memory accesses of the kernels -/

/-- One memory access of a kernel: a load of `len` bytes at source offset
`addr`, or a store of `len` bytes at destination offset `addr`. -/
inductive Access where
  | load (addr len : Nat)
  | store (addr len : Nat)
  deriving DecidableEq

/-- The source offsets a list of accesses loads, in order. -/
def loadedBytes : List Access → List Nat
  | [] => []
  | Access.load a n :: rest => List.range' a n ++ loadedBytes rest
  | Access.store _ _ :: rest => loadedBytes rest

/-- The destination offsets a list of accesses stores, in order. -/
def storedBytes : List Access → List Nat
  | [] => []
  | Access.load _ _ :: rest => storedBytes rest
  | Access.store a n :: rest => List.range' a n ++ storedBytes rest

/-- The loop of `parallelLoop` together with its accesses: per round four
16-byte `_mm_loadu_si128` and two 16-byte `_mm_storeu_si128` (img.cpp 25-36). -/
def parallelLoopT (src : Mem) (srcEnd : Nat) (s : RowState) : RowState × List Access :=
  if s.srcPtr < srcEnd then
    let v12 := _mm_loadu_si128 src s.srcPtr
    let v34 := _mm_loadu_si128 src (s.srcPtr + 16)
    let v56 := _mm_loadu_si128 src (s.srcPtr + 32)
    let v78 := _mm_loadu_si128 src (s.srcPtr + 48)
    let r12 := _mm_shuffle_epi8 v12 shuffler1
    let r34 := _mm_shuffle_epi8 v34 shuffler2
    let r56 := _mm_shuffle_epi8 v56 shuffler1
    let r78 := _mm_shuffle_epi8 v78 shuffler2
    let fused1 := _mm_or_si128 r12 r34
    let fused2 := _mm_or_si128 r56 r78
    let d1 := _mm_storeu_si128 s.dest s.destPtr fused1
    let d2 := _mm_storeu_si128 d1 (s.destPtr + 16) fused2
    let t := parallelLoopT src srcEnd ⟨d2, s.destPtr + 32, s.srcPtr + 64⟩
    (t.1, [Access.load s.srcPtr 16, Access.load (s.srcPtr + 16) 16,
           Access.load (s.srcPtr + 32) 16, Access.load (s.srcPtr + 48) 16,
           Access.store s.destPtr 16, Access.store (s.destPtr + 16) 16] ++ t.2)
  else (s, [])
termination_by srcEnd - s.srcPtr
decreasing_by simp_wf; omega

/-- The accesses of `parallelTail4`: two 16-byte loads, one 16-byte store
(img.cpp 44-49). -/
def parallelTail4T (src : Mem) (s : RowState) : RowState × List Access :=
  (parallelTail4 src s,
    [Access.load s.srcPtr 16, Access.load (s.srcPtr + 16) 16, Access.store s.destPtr 16])

/-- The accesses of `parallelTail2`: one 16-byte load and the 16-byte store of
`_mm_storeu_epi64` (img.cpp 57-59). -/
def parallelTail2T (src : Mem) (s : RowState) : RowState × List Access :=
  (parallelTail2 src s, [Access.load s.srcPtr 16, Access.store s.destPtr 16])

/-- The accesses of `parallelTail1`: the 8-byte load of `_mm_loadl_epi64` and the
16-byte store of `_mm_storeu_epi32` (img.cpp 67-69). -/
def parallelTail1T (src : Mem) (s : RowState) : RowState × List Access :=
  (parallelTail1 src s, [Access.load s.srcPtr 8, Access.store s.destPtr 16])

/-- The row of `parallelRow` together with its accesses. -/
def parallelRowT (src : Mem) (width : Nat) (dest : Mem) (destRowStart srcRowStart : Nat) :
    Mem × List Access :=
  let s0 : RowState := ⟨dest, destRowStart, srcRowStart⟩
  let srcEnd := s0.srcPtr + (width &&& notSeven) * 4 * 2
  let t1 := parallelLoopT src srcEnd s0
  let t2 := if width &&& 4 ≠ 0 then parallelTail4T src t1.1 else (t1.1, [])
  let t3 := if width &&& 2 ≠ 0 then parallelTail2T src t2.1 else (t2.1, [])
  let t4 := if width &&& 1 ≠ 0 then parallelTail1T src t3.1 else (t3.1, [])
  (t4.1.dest, t1.2 ++ t2.2 ++ t3.2 ++ t4.2)

/-- The rows of `parallelRows` together with their accesses. -/
def parallelRowsT (src : Mem) (width srcSpan destSpan : Nat) :
    Nat → Mem → Nat → Nat → Mem × List Access
  | 0, dest, _, _ => (dest, [])
  | n + 1, dest, destRowStart, srcRowStart =>
    let r := parallelRowT src width dest destRowStart srcRowStart
    let t := parallelRowsT src width srcSpan destSpan n r.1
      (destRowStart + destSpan) (srcRowStart + srcSpan)
    (t.1, r.2 ++ t.2)

/-- The function `DemoteImageInParallel` together with its accesses. -/
def DemoteImageInParallelT (dest src : Mem) (width height srcSpan destSpan : Nat) :
    Mem × List Access :=
  parallelRowsT src width srcSpan destSpan height dest 0 0

/-- The loop of `oldSchoolLoop` together with its accesses: per round four
8-byte loads, then four 4-byte stores (img.cpp 88-119). -/
def oldSchoolLoopT (src : Mem) (srcEnd : Nat) (s : RowState) : RowState × List Access :=
  if s.srcPtr < srcEnd then
    let d1 := scalarPixel src s.srcPtr s.destPtr 0 s.dest
    let d2 := scalarPixel src s.srcPtr s.destPtr 1 d1
    let d3 := scalarPixel src s.srcPtr s.destPtr 2 d2
    let d4 := scalarPixel src s.srcPtr s.destPtr 3 d3
    let t := oldSchoolLoopT src srcEnd ⟨d4, s.destPtr + 16, s.srcPtr + 32⟩
    (t.1, [Access.load s.srcPtr 8, Access.load (s.srcPtr + 8) 8,
           Access.load (s.srcPtr + 16) 8, Access.load (s.srcPtr + 24) 8,
           Access.store s.destPtr 4, Access.store (s.destPtr + 4) 4,
           Access.store (s.destPtr + 8) 4, Access.store (s.destPtr + 12) 4] ++ t.2)
  else (s, [])
termination_by srcEnd - s.srcPtr
decreasing_by simp_wf; omega

/-- The accesses of `oldSchoolTail2`: two 8-byte loads, then two 4-byte stores
(img.cpp 126-141). -/
def oldSchoolTail2T (src : Mem) (s : RowState) : RowState × List Access :=
  (oldSchoolTail2 src s,
    [Access.load s.srcPtr 8, Access.load (s.srcPtr + 8) 8,
     Access.store s.destPtr 4, Access.store (s.destPtr + 4) 4])

/-- The accesses of `oldSchoolTail1`: one 8-byte load, one 4-byte store
(img.cpp 148-155). -/
def oldSchoolTail1T (src : Mem) (s : RowState) : RowState × List Access :=
  (oldSchoolTail1 src s, [Access.load s.srcPtr 8, Access.store s.destPtr 4])

/-- The row of `oldSchoolRow` together with its accesses. -/
def oldSchoolRowT (src : Mem) (width : Nat) (dest : Mem) (destRowStart srcRowStart : Nat) :
    Mem × List Access :=
  let s0 : RowState := ⟨dest, destRowStart, srcRowStart⟩
  let srcEnd := s0.srcPtr + (width &&& notThree) * 4 * 2
  let t1 := oldSchoolLoopT src srcEnd s0
  let t2 := if width &&& 2 ≠ 0 then oldSchoolTail2T src t1.1 else (t1.1, [])
  let t3 := if width &&& 1 ≠ 0 then oldSchoolTail1T src t2.1 else (t2.1, [])
  (t3.1.dest, t1.2 ++ t2.2 ++ t3.2)

/-- The rows of `oldSchoolRows` together with their accesses. -/
def oldSchoolRowsT (src : Mem) (width srcSpan destSpan : Nat) :
    Nat → Mem → Nat → Nat → Mem × List Access
  | 0, dest, _, _ => (dest, [])
  | n + 1, dest, destRowStart, srcRowStart =>
    let r := oldSchoolRowT src width dest destRowStart srcRowStart
    let t := oldSchoolRowsT src width srcSpan destSpan n r.1
      (destRowStart + destSpan) (srcRowStart + srcSpan)
    (t.1, r.2 ++ t.2)

/-- The function `DemoteImageOldSchool` together with its accesses. -/
def DemoteImageOldSchoolT (dest src : Mem) (width height srcSpan destSpan : Nat) :
    Mem × List Access :=
  oldSchoolRowsT src width srcSpan destSpan height dest 0 0

/-- The accesses of the three tail blocks of the vectorized row, the loop
having consumed `c8` pixels. -/
def parallelTailLog (w dp sp c8 : Nat) : List Access :=
  (if w &&& 4 ≠ 0 then
      [Access.load (sp + 8 * c8) 16, Access.load (sp + 8 * c8 + 16) 16,
       Access.store (dp + 4 * c8) 16]
    else [])
  ++ (if w &&& 2 ≠ 0 then
      [Access.load (sp + 8 * (c8 + (w &&& 4))) 16, Access.store (dp + 4 * (c8 + (w &&& 4))) 16]
    else [])
  ++ (if w &&& 1 ≠ 0 then
      [Access.load (sp + 8 * (c8 + (w &&& 4) + (w &&& 2))) 8,
       Access.store (dp + 4 * (c8 + (w &&& 4) + (w &&& 2))) 16]
    else [])

/-- The accesses of the two tail blocks of the scalar row, the loop having
consumed `c4` pixels. -/
def oldSchoolTailLog (w dp sp c4 : Nat) : List Access :=
  (if w &&& 2 ≠ 0 then
      [Access.load (sp + 8 * c4) 8, Access.load (sp + 8 * c4 + 8) 8,
       Access.store (dp + 4 * c4) 4, Access.store (dp + 4 * c4 + 4) 4]
    else [])
  ++ (if w &&& 1 ≠ 0 then
      [Access.load (sp + 8 * (c4 + (w &&& 2))) 8, Access.store (dp + 4 * (c4 + (w &&& 2))) 4]
    else [])

/-! ## Lemmas -/

theorem and_mask (x k : Nat) : x &&& (0xFF <<< k) = ((x >>> k) % 256) * 2 ^ k := by
  rw [← Nat.shiftLeft_eq]
  apply Nat.eq_of_testBit_eq
  intro i
  have h : (255 : Nat) = 2 ^ 8 - 1 := by norm_num
  have h2 : (256 : Nat) = 2 ^ 8 := by norm_num
  rw [h, h2]
  simp only [Nat.testBit_and, Nat.testBit_shiftLeft, Nat.testBit_shiftRight, Nat.testBit_mod_two_pow, Nat.testBit_two_pow_sub_one]
  by_cases h1 : k ≤ i
  · simp only [ge_iff_le, h1, decide_True, Bool.true_and, Nat.add_sub_cancel' h1]
    exact Bool.and_comm _ _
  · simp [h1]

theorem or_hi (lo hi k : Nat) (h : lo < 2 ^ k) : lo ||| hi * 2 ^ k = lo + hi * 2 ^ k := by
  rw [Nat.or_comm, Nat.mul_comm, ← Nat.mul_add_lt_is_or h, Nat.add_comm]

theorem demotePixel_eq (v : Nat) :
    demotePixel v = (v / 2 ^ 40) % 256 + (v / 2 ^ 24) % 256 * 2 ^ 8
      + (v / 2 ^ 8) % 256 * 2 ^ 16 + (v / 2 ^ 56) % 256 * 2 ^ 24 := by
  unfold demotePixel
  have e0 : (0x000000FF : Nat) = 0xFF <<< 0 := by decide
  have e1 : (0x0000FF00 : Nat) = 0xFF <<< 8 := by decide
  have e2 : (0x00FF0000 : Nat) = 0xFF <<< 16 := by decide
  have e3 : (0xFF000000 : Nat) = 0xFF <<< 24 := by decide
  rw [e0, e1, e2, e3, and_mask, and_mask, and_mask, and_mask]
  simp only [u32, shl64, Nat.shiftRight_eq_div_pow, Nat.shiftLeft_eq]
  have a0 : (v / 2 ^ 40 % 2 ^ 32 / 2 ^ 0) % 256 = (v / 2 ^ 40) % 256 := by omega
  have a1 : (v / 2 ^ 16 % 2 ^ 32 / 2 ^ 8) % 256 = (v / 2 ^ 24) % 256 := by omega
  have a2 : (v * 2 ^ 8 % 2 ^ 64 % 2 ^ 32 / 2 ^ 16) % 256 = (v / 2 ^ 8) % 256 := by omega
  have a3 : (v / 2 ^ 32 % 2 ^ 32 / 2 ^ 24) % 256 = (v / 2 ^ 56) % 256 := by omega
  rw [a0, a1, a2, a3, Nat.pow_zero, Nat.mul_one]
  rw [or_hi _ _ 8 (by omega), or_hi _ _ 16 (by omega), or_hi _ _ 24 (by omega)]

theorem bytes32_pack (a b c d : Nat) (ha : a < 256) (hb : b < 256) (hc : c < 256)
    (hd : d < 256) : bytes32 (a + b * 2 ^ 8 + c * 2 ^ 16 + d * 2 ^ 24) = [a, b, c, d] := by
  simp only [bytes32, Nat.shiftRight_eq_div_pow]
  congr 1
  · omega
  congr 1
  · omega
  congr 1
  · omega
  congr 1
  · omega

theorem demotePixel_bytes (v : Nat) :
    bytes32 (demotePixel v)
      = [(v / 2 ^ 40) % 256, (v / 2 ^ 24) % 256, (v / 2 ^ 8) % 256, (v / 2 ^ 56) % 256] := by
  rw [demotePixel_eq]
  exact bytes32_pack _ _ _ _ (Nat.mod_lt _ (by norm_num)) (Nat.mod_lt _ (by norm_num))
    (Nat.mod_lt _ (by norm_num)) (Nat.mod_lt _ (by norm_num))

theorem pix_shift (src : Mem) (sp c j : Nat) : pix src (sp + 8 * c) j = pix src sp (4 * c + j) := by
  unfold pix
  have h1 : (4 * c + j) / 4 = c + j / 4 := by omega
  have h2 : (4 * c + j) % 4 = j % 4 := by omega
  rw [h1, h2]
  congr 2
  omega

theorem writeBytes_rowImage (src dest : Mem) (dp sp c ov n : Nat) (bs : List Nat)
    (hpix : ∀ j, j < 4 * n → bs.getD j 0 = pix src (sp + 8 * c) j)
    (hzero : ∀ j, 4 * n ≤ j → bs.getD j 0 = 0)
    (hov : ov ≤ bs.length) (hn : 4 * n ≤ bs.length) :
    writeBytes (rowImage src dest dp sp c ov) (dp + 4 * c) bs
      = rowImage src dest dp sp (c + n) (bs.length - 4 * n) := by
  funext p
  unfold writeBytes
  by_cases hin : dp + 4 * c ≤ p ∧ p < dp + 4 * c + bs.length
  · rw [if_pos hin]
    unfold rowImage
    rw [if_neg (by omega)]
    by_cases hj : p - (dp + 4 * c) < 4 * n
    · rw [if_pos (by omega), hpix _ hj, pix_shift]
      congr 1
      omega
    · rw [if_neg (by omega), if_pos (by omega), hzero _ (by omega)]
  · rw [if_neg hin]
    unfold rowImage
    by_cases h1 : p < dp
    · rw [if_pos h1, if_pos h1]
    · rw [if_neg h1, if_neg h1]
      by_cases h2 : p < dp + 4 * c
      · rw [if_pos h2, if_pos (by omega)]
      · rw [if_neg h2, if_neg (by omega), if_neg (by omega), if_neg (by omega)]

theorem loadu_eq (m : Mem) (a : Nat) : _mm_loadu_si128 m a =
    [readByte m (a+0), readByte m (a+1), readByte m (a+2), readByte m (a+3), readByte m (a+4),
     readByte m (a+5), readByte m (a+6), readByte m (a+7), readByte m (a+8), readByte m (a+9),
     readByte m (a+10), readByte m (a+11), readByte m (a+12), readByte m (a+13),
     readByte m (a+14), readByte m (a+15)] := rfl

theorem shuffle1_eq (a0 a1 a2 a3 a4 a5 a6 a7 a8 a9 a10 a11 a12 a13 a14 a15 : Nat) :
    _mm_shuffle_epi8 [a0, a1, a2, a3, a4, a5, a6, a7, a8, a9, a10, a11, a12, a13, a14, a15] shuffler1
    = [a5, a3, a1, a7, a13, a11, a9, a15, 0, 0, 0, 0, 0, 0, 0, 0] := by
  rfl
theorem shuffle2_eq (a0 a1 a2 a3 a4 a5 a6 a7 a8 a9 a10 a11 a12 a13 a14 a15 : Nat) :
    _mm_shuffle_epi8 [a0, a1, a2, a3, a4, a5, a6, a7, a8, a9, a10, a11, a12, a13, a14, a15] shuffler2
    = [0, 0, 0, 0, 0, 0, 0, 0, a5, a3, a1, a7, a13, a11, a9, a15] := by
  rfl

theorem chunk_length (src : Mem) (a n z : Nat) : (chunk src a n z).length = 4 * n + z := by
  simp [chunk]

theorem chunk_getD_lt (src : Mem) (a n z j : Nat) (h : j < 4 * n) :
    (chunk src a n z).getD j 0 = pix src a j := by
  unfold chunk
  rw [List.getD_append _ _ _ _ (by simpa using h)]
  simp [List.getD, h]

theorem chunk_getD_ge (src : Mem) (a n z j : Nat) (h : 4 * n ≤ j) :
    (chunk src a n z).getD j 0 = 0 := by
  unfold chunk
  rw [List.getD_append_right _ _ _ _ (by simpa using h)]
  simp [List.getD]

theorem writeBytes_chunk (src dest : Mem) (dp sp c ov n z : Nat) (hov : ov ≤ 4 * n + z) :
    writeBytes (rowImage src dest dp sp c ov) (dp + 4 * c) (chunk src (sp + 8 * c) n z)
      = rowImage src dest dp sp (c + n) z := by
  have h := writeBytes_rowImage src dest dp sp c ov n (chunk src (sp + 8 * c) n z)
    (fun j hj => chunk_getD_lt src _ n z j hj) (fun j hj => chunk_getD_ge src _ n z j hj)
    (by rw [chunk_length]; exact hov) (by rw [chunk_length]; omega)
  rw [h, chunk_length, Nat.add_sub_cancel_left]

theorem fused_chunk (src : Mem) (a : Nat) :
    _mm_or_si128 (_mm_shuffle_epi8 (_mm_loadu_si128 src a) shuffler1)
        (_mm_shuffle_epi8 (_mm_loadu_si128 src (a + 16)) shuffler2) = chunk src a 4 0 := by
  rw [loadu_eq, loadu_eq, shuffle1_eq, shuffle2_eq]
  simp [_mm_or_si128, Nat.add_assoc, chunk, List.range, List.range.loop, pix]

theorem pair_chunk (src : Mem) (a : Nat) :
    _mm_shuffle_epi8 (_mm_loadu_si128 src a) shuffler1 = chunk src a 2 8 := by
  rw [loadu_eq, shuffle1_eq]
  simp [Nat.add_assoc, chunk, List.range, List.range.loop, pix, List.replicate]

theorem single_chunk (src : Mem) (a : Nat) :
    _mm_shuffle_epi8 (_mm_loadl_epi64 src a) shuffler1 = chunk src a 1 12 := by
  have h : _mm_loadl_epi64 src a =
    [readByte src (a+0), readByte src (a+1), readByte src (a+2), readByte src (a+3),
     readByte src (a+4), readByte src (a+5), readByte src (a+6), readByte src (a+7),
     0, 0, 0, 0, 0, 0, 0, 0] := rfl
  rw [h, shuffle1_eq]
  simp [Nat.add_assoc, chunk, List.range, List.range.loop, pix, List.replicate]

theorem readByte_lt (m : Mem) (a : Nat) : readByte m a < 256 := Nat.mod_lt _ (by norm_num)

theorem scalar_chunk (src : Mem) (a : Nat) :
    bytes32 (demotePixel (load64 src a)) = chunk src a 1 0 := by
  rw [demotePixel_bytes]
  have h0 := readByte_lt src a
  have h1 := readByte_lt src (a + 1)
  have h2 := readByte_lt src (a + 2)
  have h3 := readByte_lt src (a + 3)
  have h4 := readByte_lt src (a + 4)
  have h5 := readByte_lt src (a + 5)
  have h6 := readByte_lt src (a + 6)
  have h7 := readByte_lt src (a + 7)
  have e5 : load64 src a / 2 ^ 40 % 256 = readByte src (a + 5) := by unfold load64; omega
  have e3 : load64 src a / 2 ^ 24 % 256 = readByte src (a + 3) := by unfold load64; omega
  have e1 : load64 src a / 2 ^ 8 % 256 = readByte src (a + 1) := by unfold load64; omega
  have e7 : load64 src a / 2 ^ 56 % 256 = readByte src (a + 7) := by unfold load64; omega
  rw [e5, e3, e1, e7]
  simp [chunk, List.range, List.range.loop, pix]

theorem parallelTail4_spec (src dest : Mem) (dp sp c : Nat) (s : RowState)
    (h : RowAt src dest dp sp c 0 s) : RowAt src dest dp sp (c + 4) 0 (parallelTail4 src s) := by
  obtain ⟨hd, hp, hs⟩ := h
  refine ⟨?_, ?_, ?_⟩
  · simp only [parallelTail4, _mm_storeu_si128]
    rw [fused_chunk, hd, hp, hs, writeBytes_chunk _ _ _ _ _ _ _ _ (by omega)]
  · simp only [parallelTail4]; omega
  · simp only [parallelTail4]; omega

theorem parallelTail2_spec (src dest : Mem) (dp sp c : Nat) (s : RowState)
    (h : RowAt src dest dp sp c 0 s) : RowAt src dest dp sp (c + 2) 8 (parallelTail2 src s) := by
  obtain ⟨hd, hp, hs⟩ := h
  refine ⟨?_, ?_, ?_⟩
  · simp only [parallelTail2, _mm_storeu_epi64]
    rw [pair_chunk, hd, hp, hs, writeBytes_chunk _ _ _ _ _ _ _ _ (by omega)]
  · simp only [parallelTail2]; omega
  · simp only [parallelTail2]; omega

theorem parallelTail1_spec (src dest : Mem) (dp sp c ov : Nat) (s : RowState) (hov : ov ≤ 16)
    (h : RowAt src dest dp sp c ov s) :
    (parallelTail1 src s).dest = rowImage src dest dp sp (c + 1) 12 := by
  obtain ⟨hd, hp, hs⟩ := h
  simp only [parallelTail1, _mm_storeu_epi32]
  rw [single_chunk, hd, hp, hs, writeBytes_chunk _ _ _ _ _ _ _ _ (by omega)]

theorem parallelLoop_spec (src dest : Mem) (dp sp : Nat) :
    ∀ (k c : Nat) (s : RowState), RowAt src dest dp sp c 0 s →
      RowAt src dest dp sp (c + 8 * k) 0 (parallelLoop src (sp + 8 * c + 64 * k) s) := by
  intro k
  induction k with
  | zero =>
    intro c s h
    rw [parallelLoop, if_neg (by have := h.2.2; omega)]
    exact h
  | succ k ih =>
    intro c s h
    obtain ⟨hd, hp, hs⟩ := h
    rw [parallelLoop, if_pos (by omega)]
    simp only [_mm_storeu_si128]
    have hh : RowAt src dest dp sp (c + 8) 0
        ⟨writeBytes (writeBytes s.dest s.destPtr
            (_mm_or_si128 (_mm_shuffle_epi8 (_mm_loadu_si128 src s.srcPtr) shuffler1)
              (_mm_shuffle_epi8 (_mm_loadu_si128 src (s.srcPtr + 16)) shuffler2)))
          (s.destPtr + 16)
            (_mm_or_si128 (_mm_shuffle_epi8 (_mm_loadu_si128 src (s.srcPtr + 32)) shuffler1)
              (_mm_shuffle_epi8 (_mm_loadu_si128 src (s.srcPtr + 48)) shuffler2)),
          s.destPtr + 32, s.srcPtr + 64⟩ := by
      refine ⟨?_, ?_, ?_⟩
      · show writeBytes (writeBytes s.dest s.destPtr _) (s.destPtr + 16) _ = _
        have e48 : s.srcPtr + 48 = s.srcPtr + 32 + 16 := by omega
        rw [e48, fused_chunk, fused_chunk, hd, hp, hs,
          writeBytes_chunk _ _ _ _ _ _ _ _ (by omega)]
        have e1 : dp + 4 * c + 16 = dp + 4 * (c + 4) := by omega
        have e2 : sp + 8 * c + 32 = sp + 8 * (c + 4) := by omega
        rw [e1, e2, writeBytes_chunk _ _ _ _ _ _ _ _ (by omega)]
      · show s.destPtr + 32 = _
        omega
      · show s.srcPtr + 64 = _
        omega
    have := ih (c + 8) _ hh
    have e3 : sp + 8 * (c + 8) + 64 * k = sp + 8 * c + 64 * (k + 1) := by omega
    have e4 : c + 8 + 8 * k = c + 8 * (k + 1) := by omega
    rw [e3, e4] at this
    exact this

theorem and_bit (w i : Nat) : (w &&& 2 ^ i ≠ 0) ↔ w / 2 ^ i % 2 = 1 := by
  rw [Nat.and_two_pow, Nat.testBit_to_div_mod]
  by_cases h : w / 2 ^ i % 2 = 1
  · simp [h]
  · simp [h]

theorem and_four (w : Nat) : (w &&& 4 ≠ 0) ↔ w / 4 % 2 = 1 := and_bit w 2
theorem and_two (w : Nat) : (w &&& 2 ≠ 0) ↔ w / 2 % 2 = 1 := and_bit w 1
theorem and_one (w : Nat) : (w &&& 1 ≠ 0) ↔ w % 2 = 1 := by
  have h := and_bit w 0
  rw [Nat.pow_zero, Nat.div_one] at h
  exact h

theorem and_highMask (w k : Nat) (hk : k ≤ 32) (hw : w < 2 ^ 32) :
    w &&& ((2 ^ (32 - k) - 1) <<< k) = 2 ^ k * (w / 2 ^ k) := by
  apply Nat.eq_of_testBit_eq
  intro i
  rw [Nat.testBit_and, Nat.testBit_shiftLeft, Nat.testBit_two_pow_sub_one, Nat.mul_comm,
    ← Nat.shiftLeft_eq, Nat.testBit_shiftLeft, ← Nat.shiftRight_eq_div_pow,
    Nat.testBit_shiftRight]
  by_cases h1 : k ≤ i
  · by_cases h2 : i < 32
    · simp [h1, Nat.add_sub_cancel' h1]
      omega
    · have : w.testBit i = false := by
        apply Nat.testBit_lt_two_pow
        calc w < 2 ^ 32 := hw
          _ ≤ 2 ^ i := Nat.pow_le_pow_right (by norm_num) (by omega)
      simp [h1, Nat.add_sub_cancel' h1, this]
  · simp [h1]

theorem and_notSeven (w : Nat) (hw : w < 2 ^ 32) : w &&& notSeven = 8 * (w / 8) := by
  have := and_highMask w 3 (by norm_num) hw
  simpa [notSeven] using this

theorem and_notThree (w : Nat) (hw : w < 2 ^ 32) : w &&& notThree = 4 * (w / 4) := by
  have := and_highMask w 2 (by norm_num) hw
  simpa [notThree] using this

theorem rowAt_start (src dest : Mem) (dp sp : Nat) :
    RowAt src dest dp sp 0 0 ⟨dest, dp, sp⟩ := by
  refine ⟨?_, rfl, rfl⟩
  funext p
  unfold rowImage
  by_cases h : p < dp
  · rw [if_pos h]
  · rw [if_neg h, if_neg (by omega), if_neg (by omega)]

theorem rowImage_congr (src dest : Mem) (dp sp : Nat) {c c' ov ov' : Nat} (hc : c = c')
    (ho : ov = ov') : rowImage src dest dp sp c ov = rowImage src dest dp sp c' ov' := by
  rw [hc, ho]

theorem overrun_odd (w : Nat) (h : w % 2 = 1) : overrun w = 12 := by
  unfold overrun; rw [if_pos h]

theorem overrun_two (w : Nat) (h1 : ¬ w % 2 = 1) (h2 : w / 2 % 2 = 1) : overrun w = 8 := by
  unfold overrun; rw [if_neg h1, if_pos (by omega)]

theorem overrun_none (w : Nat) (h1 : ¬ w % 2 = 1) (h2 : ¬ w / 2 % 2 = 1) : overrun w = 0 := by
  unfold overrun; rw [if_neg h1, if_neg (by omega)]

theorem parallelRow_eq (src dest : Mem) (dp sp w : Nat) (hw : w < 2 ^ 32) :
    parallelRow src w dest dp sp = rowImage src dest dp sp w (overrun w) := by
  unfold parallelRow
  simp only [and_notSeven w hw, and_four, and_two, and_one]
  have h1 := parallelLoop_spec src dest dp sp (w / 8) 0 ⟨dest, dp, sp⟩ (rowAt_start src dest dp sp)
  have e : sp + 8 * (w / 8) * 4 * 2 = sp + 8 * 0 + 64 * (w / 8) := by omega
  rw [e]
  generalize parallelLoop src (sp + 8 * 0 + 64 * (w / 8)) ⟨dest, dp, sp⟩ = s1 at h1 ⊢
  by_cases b4 : w / 4 % 2 = 1 <;> by_cases b2 : w / 2 % 2 = 1 <;> by_cases b1 : w % 2 = 1
  all_goals simp only [b4, b2, b1, if_true, if_false]
  · have h2 := parallelTail4_spec _ _ _ _ _ _ h1
    have h3 := parallelTail2_spec _ _ _ _ _ _ h2
    have h4 := parallelTail1_spec _ _ _ _ _ _ _ (by norm_num) h3
    rw [h4]; exact rowImage_congr _ _ _ _ (by omega) (overrun_odd w b1).symm
  · have h2 := parallelTail4_spec _ _ _ _ _ _ h1
    have h3 := parallelTail2_spec _ _ _ _ _ _ h2
    rw [h3.1]; exact rowImage_congr _ _ _ _ (by omega) (overrun_two w b1 b2).symm
  · have h2 := parallelTail4_spec _ _ _ _ _ _ h1
    have h4 := parallelTail1_spec _ _ _ _ _ _ _ (by norm_num) h2
    rw [h4]; exact rowImage_congr _ _ _ _ (by omega) (overrun_odd w b1).symm
  · have h2 := parallelTail4_spec _ _ _ _ _ _ h1
    rw [h2.1]; exact rowImage_congr _ _ _ _ (by omega) (overrun_none w b1 b2).symm
  · have h3 := parallelTail2_spec _ _ _ _ _ _ h1
    have h4 := parallelTail1_spec _ _ _ _ _ _ _ (by norm_num) h3
    rw [h4]; exact rowImage_congr _ _ _ _ (by omega) (overrun_odd w b1).symm
  · have h3 := parallelTail2_spec _ _ _ _ _ _ h1
    rw [h3.1]; exact rowImage_congr _ _ _ _ (by omega) (overrun_two w b1 b2).symm
  · have h4 := parallelTail1_spec _ _ _ _ _ _ _ (by norm_num) h1
    rw [h4]; exact rowImage_congr _ _ _ _ (by omega) (overrun_odd w b1).symm
  · rw [h1.1]; exact rowImage_congr _ _ _ _ (by omega) (overrun_none w b1 b2).symm

theorem scalarPixel_spec (src dest : Mem) (dp sp c k : Nat) (m : Mem) (a b : Nat)
    (hm : m = rowImage src dest dp sp (c + k) 0) (ha : a = sp + 8 * c) (hb : b = dp + 4 * c) :
    scalarPixel src a b k m = rowImage src dest dp sp (c + k + 1) 0 := by
  unfold scalarPixel store32
  have e1 : b + 4 * k = dp + 4 * (c + k) := by omega
  have e2 : a + 8 * k = sp + 8 * (c + k) := by omega
  rw [scalar_chunk, hm, e1, e2, writeBytes_chunk _ _ _ _ _ _ _ _ (by omega)]

theorem oldSchoolTail2_spec (src dest : Mem) (dp sp c : Nat) (s : RowState)
    (h : RowAt src dest dp sp c 0 s) : RowAt src dest dp sp (c + 2) 0 (oldSchoolTail2 src s) := by
  obtain ⟨hd, hp, hs⟩ := h
  refine ⟨?_, ?_, ?_⟩
  · simp only [oldSchoolTail2]
    exact scalarPixel_spec src dest dp sp c 1 _ _ _
      (scalarPixel_spec src dest dp sp c 0 _ _ _ hd hs hp) hs hp
  · simp only [oldSchoolTail2]; omega
  · simp only [oldSchoolTail2]; omega

theorem oldSchoolTail1_spec (src dest : Mem) (dp sp c : Nat) (s : RowState)
    (h : RowAt src dest dp sp c 0 s) :
    (oldSchoolTail1 src s).dest = rowImage src dest dp sp (c + 1) 0 := by
  obtain ⟨hd, hp, hs⟩ := h
  simp only [oldSchoolTail1]
  exact scalarPixel_spec src dest dp sp c 0 _ _ _ hd hs hp

theorem oldSchoolLoop_spec (src dest : Mem) (dp sp : Nat) :
    ∀ (k c : Nat) (s : RowState), RowAt src dest dp sp c 0 s →
      RowAt src dest dp sp (c + 4 * k) 0 (oldSchoolLoop src (sp + 8 * c + 32 * k) s) := by
  intro k
  induction k with
  | zero =>
    intro c s h
    rw [oldSchoolLoop, if_neg (by have := h.2.2; omega)]
    exact h
  | succ k ih =>
    intro c s h
    obtain ⟨hd, hp, hs⟩ := h
    rw [oldSchoolLoop, if_pos (by omega)]
    have hh : RowAt src dest dp sp (c + 4) 0
        ⟨scalarPixel src s.srcPtr s.destPtr 3 (scalarPixel src s.srcPtr s.destPtr 2
            (scalarPixel src s.srcPtr s.destPtr 1 (scalarPixel src s.srcPtr s.destPtr 0 s.dest))),
          s.destPtr + 16, s.srcPtr + 32⟩ := by
      refine ⟨?_, ?_, ?_⟩
      · exact scalarPixel_spec src dest dp sp c 3 _ _ _
          (scalarPixel_spec src dest dp sp c 2 _ _ _
            (scalarPixel_spec src dest dp sp c 1 _ _ _
              (scalarPixel_spec src dest dp sp c 0 _ _ _ hd hs hp) hs hp) hs hp) hs hp
      · show s.destPtr + 16 = _
        omega
      · show s.srcPtr + 32 = _
        omega
    have := ih (c + 4) _ hh
    have e3 : sp + 8 * (c + 4) + 32 * k = sp + 8 * c + 32 * (k + 1) := by omega
    have e4 : c + 4 + 4 * k = c + 4 * (k + 1) := by omega
    rw [e3, e4] at this
    exact this

theorem oldSchoolRow_eq (src dest : Mem) (dp sp w : Nat) (hw : w < 2 ^ 32) :
    oldSchoolRow src w dest dp sp = rowImage src dest dp sp w 0 := by
  unfold oldSchoolRow
  simp only [and_notThree w hw, and_two, and_one]
  have h1 := oldSchoolLoop_spec src dest dp sp (w / 4) 0 ⟨dest, dp, sp⟩ (rowAt_start src dest dp sp)
  have e : sp + 4 * (w / 4) * 4 * 2 = sp + 8 * 0 + 32 * (w / 4) := by omega
  rw [e]
  generalize oldSchoolLoop src (sp + 8 * 0 + 32 * (w / 4)) ⟨dest, dp, sp⟩ = s1 at h1 ⊢
  by_cases b2 : w / 2 % 2 = 1 <;> by_cases b1 : w % 2 = 1
  all_goals simp only [b2, b1, if_true, if_false]
  · have h3 := oldSchoolTail2_spec _ _ _ _ _ _ h1
    have h4 := oldSchoolTail1_spec _ _ _ _ _ _ h3
    rw [h4]; exact rowImage_congr _ _ _ _ (by omega) rfl
  · have h3 := oldSchoolTail2_spec _ _ _ _ _ _ h1
    rw [h3.1]; exact rowImage_congr _ _ _ _ (by omega) rfl
  · have h4 := oldSchoolTail1_spec _ _ _ _ _ _ h1
    rw [h4]; exact rowImage_congr _ _ _ _ (by omega) rfl
  · rw [h1.1]; exact rowImage_congr _ _ _ _ (by omega) rfl

theorem parallelRows_below (src : Mem) (w ss ds : Nat) (hw : w < 2 ^ 32) :
    ∀ (n : Nat) (dest : Mem) (dp sp p : Nat), p < dp →
      parallelRows src w ss ds n dest dp sp p = dest p := by
  intro n
  induction n with
  | zero => intro dest dp sp p _; rfl
  | succ n ih =>
    intro dest dp sp p hp
    rw [parallelRows, ih _ _ _ _ (by omega), parallelRow_eq _ _ _ _ _ hw]
    unfold rowImage
    rw [if_pos hp]

theorem parallelRows_pixel (src : Mem) (w ss ds : Nat) (hw : w < 2 ^ 32) (hd : 4 * w ≤ ds) :
    ∀ (n : Nat) (dest : Mem) (dp sp i j : Nat), i < n → j < 4 * w →
      parallelRows src w ss ds n dest dp sp (dp + i * ds + j) = pix src (sp + i * ss) j := by
  intro n
  induction n with
  | zero => intro dest dp sp i j hi; omega
  | succ n ih =>
    intro dest dp sp i j hi hj
    rw [parallelRows]
    cases i with
    | zero =>
      rw [parallelRows_below src w ss ds hw _ _ _ _ _ (by omega), parallelRow_eq _ _ _ _ _ hw]
      unfold rowImage
      rw [if_neg (by omega), if_pos (by omega)]
      congr 1 <;> omega
    | succ i =>
      have := ih (parallelRow src w dest dp sp) (dp + ds) (sp + ss) i j (by omega) hj
      have e1 : dp + (i + 1) * ds + j = dp + ds + i * ds + j := by rw [Nat.add_mul]; omega
      have e2 : sp + (i + 1) * ss = sp + ss + i * ss := by rw [Nat.add_mul]; omega
      rw [e1, e2]
      exact this

theorem oldSchoolRows_below (src : Mem) (w ss ds : Nat) (hw : w < 2 ^ 32) :
    ∀ (n : Nat) (dest : Mem) (dp sp p : Nat), p < dp →
      oldSchoolRows src w ss ds n dest dp sp p = dest p := by
  intro n
  induction n with
  | zero => intro dest dp sp p _; rfl
  | succ n ih =>
    intro dest dp sp p hp
    rw [oldSchoolRows, ih _ _ _ _ (by omega), oldSchoolRow_eq _ _ _ _ _ hw]
    unfold rowImage
    rw [if_pos hp]

theorem oldSchoolRows_pixel (src : Mem) (w ss ds : Nat) (hw : w < 2 ^ 32) (hd : 4 * w ≤ ds) :
    ∀ (n : Nat) (dest : Mem) (dp sp i j : Nat), i < n → j < 4 * w →
      oldSchoolRows src w ss ds n dest dp sp (dp + i * ds + j) = pix src (sp + i * ss) j := by
  intro n
  induction n with
  | zero => intro dest dp sp i j hi; omega
  | succ n ih =>
    intro dest dp sp i j hi hj
    rw [oldSchoolRows]
    cases i with
    | zero =>
      rw [oldSchoolRows_below src w ss ds hw _ _ _ _ _ (by omega), oldSchoolRow_eq _ _ _ _ _ hw]
      unfold rowImage
      rw [if_neg (by omega), if_pos (by omega)]
      congr 1 <;> omega
    | succ i =>
      have := ih (oldSchoolRow src w dest dp sp) (dp + ds) (sp + ss) i j (by omega) hj
      have e1 : dp + (i + 1) * ds + j = dp + ds + i * ds + j := by rw [Nat.add_mul]; omega
      have e2 : sp + (i + 1) * ss = sp + ss + i * ss := by rw [Nat.add_mul]; omega
      rw [e1, e2]
      exact this

/-- Frame of the scalar kernel: a byte outside every row's pixel area keeps its value. -/
theorem oldSchoolRows_frame (src : Mem) (w ss ds : Nat) (hw : w < 2 ^ 32) :
    ∀ (n : Nat) (dest : Mem) (dp sp p : Nat),
      (∀ i, i < n → ¬ (dp + i * ds ≤ p ∧ p < dp + i * ds + 4 * w)) →
      oldSchoolRows src w ss ds n dest dp sp p = dest p := by
  intro n
  induction n with
  | zero => intro dest dp sp p _; rfl
  | succ n ih =>
    intro dest dp sp p h
    rw [oldSchoolRows, ih, oldSchoolRow_eq _ _ _ _ _ hw]
    · have h0 := h 0 (by omega)
      unfold rowImage
      by_cases hp : p < dp
      · rw [if_pos hp]
      · rw [if_neg hp, if_neg (by omega), if_neg (by omega)]
    · intro i hi
      have := h (i + 1) (by omega)
      rw [Nat.add_mul] at this
      omega

theorem srcChannel_high (src : Mem) (o c : Nat) :
    srcChannel src o c >>> 8 = readByte src (o + 2 * c + 1) := by
  have h := readByte_lt src (o + 2 * c)
  unfold srcChannel
  rw [Nat.shiftRight_eq_div_pow]
  omega

theorem pix_channel (src : Mem) (o : Nat) :
    pix src o 0 = srcChannel src o 2 >>> 8 ∧ pix src o 1 = srcChannel src o 1 >>> 8
      ∧ pix src o 2 = srcChannel src o 0 >>> 8 ∧ pix src o 3 = srcChannel src o 3 >>> 8 := by
  simp only [srcChannel_high]
  refine ⟨?_, ?_, ?_, ?_⟩ <;> rfl

theorem leafAt_queryLeaves (cpu : Cpu) (n i : Nat) (h : i ≤ n) :
    leafAt (queryLeaves cpu n) i = __cpuidex cpu i 0 := by
  unfold leafAt queryLeaves
  rw [List.getD_eq_getElem?_getD, List.getElem?_map, List.getElem?_range (by omega)]
  rfl

theorem queryLeaves_length (cpu : Cpu) (n : Nat) : (queryLeaves cpu n).length = n + 1 := by
  simp [queryLeaves]

theorem ctor_some (cpu : Cpu) (u : Uninit) (s : CpuId) (h : CpuId.ctor cpu u = some s) :
    (__cpuid cpu 0).eax < INT_MAX ∧ (__cpuid cpu 0x80000000).eax &&& 0x7FFFFFFF < INT_MAX ∧
    s.numIds = (__cpuid cpu 0).eax ∧
    s.numExtendedIds = (__cpuid cpu 0x80000000).eax &&& 0x7FFFFFFF ∧
    s.data = queryLeaves cpu s.numIds ∧
    s.extendedData = queryLeaves cpu s.numExtendedIds ∧
    s.vendor = bytes32 (__cpuid cpu 0).ebx ++ bytes32 (__cpuid cpu 0).edx
      ++ bytes32 (__cpuid cpu 0).ecx ++ List.replicate 52 0 ∧
    s.isIntel = strEq s.vendor "GenuineIntel" ∧
    s.isAMD = strEq s.vendor "AuthenticAMD" ∧
    s.brand = (if s.numExtendedIds ≥ 4 then
        (leafAt s.extendedData 2).bytes ++ (leafAt s.extendedData 3).bytes
          ++ (leafAt s.extendedData 4).bytes ++ List.replicate 16 0
      else List.replicate 64 0) := by
  unfold CpuId.ctor at h
  simp only at h
  split at h
  · exact absurd h (by simp)
  split at h
  · exact absurd h (by simp)
  rename_i h1 h2
  injection h with h
  subst h
  refine ⟨by omega, by omega, rfl, rfl, rfl, rfl, ?_, rfl, rfl, ?_⟩
  · show List.set _ 63 0 = _
    rw [leafAt_queryLeaves _ _ _ (Nat.zero_le _)]
    rfl
  · show List.set _ 63 0 = _
    split
    · rfl
    · rfl

theorem pixelWord_bytes (R G B A : Nat) (hR : R < 2 ^ 16) (hG : G < 2 ^ 16) (hB : B < 2 ^ 16)
    (hA : A < 2 ^ 16) :
    bytes32 (demotePixel (pixelWord R G B A)) = [B >>> 8, G >>> 8, R >>> 8, A >>> 8] := by
  rw [demotePixel_bytes]
  simp only [pixelWord, Nat.shiftRight_eq_div_pow]
  congr 1
  · omega
  congr 1
  · omega
  congr 1
  · omega
  congr 1
  · omega

theorem demotePixel_lt (v : Nat) : demotePixel v < 2 ^ 32 := by
  rw [demotePixel_eq]
  omega

theorem width_lt (w ss : Nat) (hs : w * 8 ≤ ss) (hint : ss < 2 ^ 31) : w < 2 ^ 32 := by omega

theorem oldSchool_pixels (dest src : Mem) (width height srcSpan destSpan : Nat)
    (hsrc : width * 8 ≤ srcSpan) (hdest : width * 4 ≤ destSpan) (hint : srcSpan < 2 ^ 31)
    (i x : Nat) (hi : i < height) (hx : x < width) :
    DemoteImageOldSchool dest src width height srcSpan destSpan (i * destSpan + 4 * x)
        = srcChannel src (i * srcSpan + 8 * x) 2 >>> 8
      ∧ DemoteImageOldSchool dest src width height srcSpan destSpan (i * destSpan + 4 * x + 1)
        = srcChannel src (i * srcSpan + 8 * x) 1 >>> 8
      ∧ DemoteImageOldSchool dest src width height srcSpan destSpan (i * destSpan + 4 * x + 2)
        = srcChannel src (i * srcSpan + 8 * x) 0 >>> 8
      ∧ DemoteImageOldSchool dest src width height srcSpan destSpan (i * destSpan + 4 * x + 3)
        = srcChannel src (i * srcSpan + 8 * x) 3 >>> 8 := by
  have hw := width_lt width srcSpan hsrc hint
  have key : ∀ k, k < 4 →
      DemoteImageOldSchool dest src width height srcSpan destSpan (i * destSpan + 4 * x + k)
        = pix src (i * srcSpan + 8 * x) k := by
    intro k hk
    have h := oldSchoolRows_pixel src width srcSpan destSpan hw (by omega) height dest 0 0 i
      (4 * x + k) hi (by omega)
    rw [Nat.zero_add, Nat.zero_add, ← Nat.add_assoc, ← pix_shift] at h
    exact h
  obtain ⟨p0, p1, p2, p3⟩ := pix_channel src (i * srcSpan + 8 * x)
  exact ⟨by rw [← p0]; exact key 0 (by norm_num), by rw [← p1]; exact key 1 (by norm_num),
    by rw [← p2]; exact key 2 (by norm_num), by rw [← p3]; exact key 3 (by norm_num)⟩

theorem parallel_pixels (dest src : Mem) (width height srcSpan destSpan : Nat)
    (hsrc : width * 8 ≤ srcSpan) (hdest : width * 4 ≤ destSpan) (hint : srcSpan < 2 ^ 31)
    (i x : Nat) (hi : i < height) (hx : x < width) :
    DemoteImageInParallel dest src width height srcSpan destSpan (i * destSpan + 4 * x)
        = srcChannel src (i * srcSpan + 8 * x) 2 >>> 8
      ∧ DemoteImageInParallel dest src width height srcSpan destSpan (i * destSpan + 4 * x + 1)
        = srcChannel src (i * srcSpan + 8 * x) 1 >>> 8
      ∧ DemoteImageInParallel dest src width height srcSpan destSpan (i * destSpan + 4 * x + 2)
        = srcChannel src (i * srcSpan + 8 * x) 0 >>> 8
      ∧ DemoteImageInParallel dest src width height srcSpan destSpan (i * destSpan + 4 * x + 3)
        = srcChannel src (i * srcSpan + 8 * x) 3 >>> 8 := by
  have hw := width_lt width srcSpan hsrc hint
  have key : ∀ k, k < 4 →
      DemoteImageInParallel dest src width height srcSpan destSpan (i * destSpan + 4 * x + k)
        = pix src (i * srcSpan + 8 * x) k := by
    intro k hk
    have h := parallelRows_pixel src width srcSpan destSpan hw (by omega) height dest 0 0 i
      (4 * x + k) hi (by omega)
    rw [Nat.zero_add, Nat.zero_add, ← Nat.add_assoc, ← pix_shift] at h
    exact h
  obtain ⟨p0, p1, p2, p3⟩ := pix_channel src (i * srcSpan + 8 * x)
  exact ⟨by rw [← p0]; exact key 0 (by norm_num), by rw [← p1]; exact key 1 (by norm_num),
    by rw [← p2]; exact key 2 (by norm_num), by rw [← p3]; exact key 3 (by norm_num)⟩

theorem and_shift_ne_zero (reg k : Nat) : ((reg &&& (1 <<< k)) != 0) = reg.testBit k := by
  rw [Nat.shiftLeft_eq, Nat.one_mul, Nat.and_two_pow]
  cases h : reg.testBit k <;> simp

theorem oldSchool_frame (dest src : Mem) (width height srcSpan destSpan : Nat)
    (hsrc : width * 8 ≤ srcSpan) (hint : srcSpan < 2 ^ 31) (p : Nat)
    (hp : ∀ i, i < height → ¬ (i * destSpan ≤ p ∧ p < i * destSpan + 4 * width)) :
    DemoteImageOldSchool dest src width height srcSpan destSpan p = dest p := by
  apply oldSchoolRows_frame src width srcSpan destSpan (width_lt width srcSpan hsrc hint)
  intro i hi
  rw [Nat.zero_add]
  exact hp i hi

theorem parallel_single_row (dest src : Mem) (w ss ds : Nat) (hw : w < 2 ^ 32) :
    DemoteImageInParallel dest src w 1 ss ds = rowImage src dest 0 0 w (overrun w) := by
  unfold DemoteImageInParallel
  rw [parallelRows, parallelRows, parallelRow_eq _ _ _ _ _ hw]

theorem oldSchool_single_row (dest src : Mem) (w ss ds : Nat) (hw : w < 2 ^ 32) :
    DemoteImageOldSchool dest src w 1 ss ds = rowImage src dest 0 0 w 0 := by
  unfold DemoteImageOldSchool
  rw [oldSchoolRows, oldSchoolRows, oldSchoolRow_eq _ _ _ _ _ hw]

theorem dispatch_pixels (s : CpuId) (dest src : Mem) (width height srcSpan destSpan : Nat)
    (hsrc : width * 8 ≤ srcSpan) (hdest : width * 4 ≤ destSpan) (hint : srcSpan < 2 ^ 31)
    (i x : Nat) (hi : i < height) (hx : x < width) :
    DemoteImage16To8 s dest src width height srcSpan destSpan (i * destSpan + 4 * x)
        = srcChannel src (i * srcSpan + 8 * x) 2 >>> 8
      ∧ DemoteImage16To8 s dest src width height srcSpan destSpan (i * destSpan + 4 * x + 1)
        = srcChannel src (i * srcSpan + 8 * x) 1 >>> 8
      ∧ DemoteImage16To8 s dest src width height srcSpan destSpan (i * destSpan + 4 * x + 2)
        = srcChannel src (i * srcSpan + 8 * x) 0 >>> 8
      ∧ DemoteImage16To8 s dest src width height srcSpan destSpan (i * destSpan + 4 * x + 3)
        = srcChannel src (i * srcSpan + 8 * x) 3 >>> 8 := by
  unfold DemoteImage16To8
  split
  · exact parallel_pixels dest src width height srcSpan destSpan hsrc hdest hint i x hi hx
  · exact oldSchool_pixels dest src width height srcSpan destSpan hsrc hdest hint i x hi hx

theorem strEq_iff (buf : List Nat) (lit : String) :
    strEq buf lit = true ↔ cstr buf = literal lit := by
  unfold strEq
  exact beq_iff_eq

theorem gated_iff (v : Bool) (reg k : Nat) :
    ((v && ((reg &&& (1 <<< k)) != 0)) != false) = true ↔ v = true ∧ reg.testBit k = true := by
  rw [and_shift_ne_zero]
  cases v <;> cases reg.testBit k <;> simp

theorem pixelWord_channels (v : Nat) (hv : v < 2 ^ 64) :
    pixelWord (channel v 0) (channel v 1) (channel v 2) (channel v 3) = v
      ∧ channel v 0 < 2 ^ 16 ∧ channel v 1 < 2 ^ 16 ∧ channel v 2 < 2 ^ 16
      ∧ channel v 3 < 2 ^ 16 := by
  simp only [pixelWord, channel, Nat.shiftRight_eq_div_pow]
  omega

theorem ctor_isSome (cpu : Cpu) (u : Uninit) (h1 : (__cpuid cpu 0).eax < INT_MAX)
    (h2 : (__cpuid cpu 0x80000000).eax &&& 0x7FFFFFFF < INT_MAX) :
    (CpuId.ctor cpu u).isSome = true := by
  unfold CpuId.ctor
  simp only
  rw [if_neg (by omega), if_neg (by omega)]
  rfl

theorem cstr_vendor_iff (b : List Nat) (hb : b.length = 12) (L : List Nat)
    (hL : L.length = 12) (hnz : ∀ x ∈ L, (x != 0) = true) :
    cstr (b ++ List.replicate 52 0) = L ↔ b = L := by
  constructor
  · intro h
    have hp : L <+: b ++ List.replicate 52 0 := by
      rw [← h]
      exact List.takeWhile_prefix _
    rw [List.prefix_iff_eq_take, hL, List.take_append_of_le_length (by omega),
      List.take_of_length_le (by omega)] at hp
    exact hp.symm
  · intro h
    subst h
    unfold cstr
    rw [List.takeWhile_append_of_pos hnz]
    simp [List.replicate, List.takeWhile]

/-! ## The claims -/

/-- C1. For 16-bit channels R, G, B, A the scalar kernel's shift-and-mask
expression of the 64-bit pixel word is a 32-bit word whose bytes, lowest first,
are (B >> 8, G >> 8, R >> 8, A >> 8); each output channel is the channel value
divided by 256, rounded down. -/
theorem demotePixel_formula (R G B A : Nat) (hR : R < 2 ^ 16) (hG : G < 2 ^ 16)
    (hB : B < 2 ^ 16) (hA : A < 2 ^ 16) :
    demotePixel (pixelWord R G B A) < 2 ^ 32
      ∧ bytes32 (demotePixel (pixelWord R G B A)) = [B >>> 8, G >>> 8, R >>> 8, A >>> 8]
      ∧ demotePixel (pixelWord R G B A)
          = B / 256 + G / 256 * 2 ^ 8 + R / 256 * 2 ^ 16 + A / 256 * 2 ^ 24 := by
  refine ⟨demotePixel_lt _, pixelWord_bytes R G B A hR hG hB hA, ?_⟩
  rw [demotePixel_eq]
  simp only [pixelWord]
  omega

/-- C1 at the example of the specification: R=0x1234, G=0xABCD, B=0x00FF,
A=0xFFFF gives the output bytes (0x00, 0xAB, 0x12, 0xFF). -/
theorem demotePixel_formula_witness :
    bytes32 (demotePixel (pixelWord 0x1234 0xABCD 0x00FF 0xFFFF)) = [0x00, 0xAB, 0x12, 0xFF] :=
  (demotePixel_formula 0x1234 0xABCD 0x00FF 0xFFFF (by decide) (by decide) (by decide)
    (by decide)).2.1

/-- C2. Scalar kernel, whole image: with srcSpan >= width*8 and
destSpan >= width*4, after `DemoteImageOldSchool` the four destination bytes at
offset i*destSpan + 4*x, for every row i < height and column x < width, are
(B >> 8, G >> 8, R >> 8, A >> 8) of the source pixel at offset
i*srcSpan + 8*x, for every width, height and source content. -/
theorem DemoteImageOldSchool_pixels (dest src : Mem) (width height srcSpan destSpan : Nat)
    (hsrc : width * 8 ≤ srcSpan) (hdest : width * 4 ≤ destSpan) (hint : srcSpan < 2 ^ 31)
    (i x : Nat) (hi : i < height) (hx : x < width) :
    DemoteImageOldSchool dest src width height srcSpan destSpan (i * destSpan + 4 * x)
        = srcChannel src (i * srcSpan + 8 * x) 2 >>> 8
      ∧ DemoteImageOldSchool dest src width height srcSpan destSpan (i * destSpan + 4 * x + 1)
        = srcChannel src (i * srcSpan + 8 * x) 1 >>> 8
      ∧ DemoteImageOldSchool dest src width height srcSpan destSpan (i * destSpan + 4 * x + 2)
        = srcChannel src (i * srcSpan + 8 * x) 0 >>> 8
      ∧ DemoteImageOldSchool dest src width height srcSpan destSpan (i * destSpan + 4 * x + 3)
        = srcChannel src (i * srcSpan + 8 * x) 3 >>> 8 :=
  oldSchool_pixels dest src width height srcSpan destSpan hsrc hdest hint i x hi hx

/-- C2 at a 7 x 2 image with padded rows, last pixel of the second row (the
4-, 2- and 1-pixel tiers all run). -/
theorem DemoteImageOldSchool_pixels_witness :
    (7 * 8 ≤ 64 ∧ 7 * 4 ≤ 32 ∧ 64 < 2 ^ 31 ∧ 1 < 2 ∧ 6 < 7)
      ∧ DemoteImageOldSchool exampleDest exampleSrc 7 2 64 32 (1 * 32 + 4 * 6)
        = srcChannel exampleSrc (1 * 64 + 8 * 6) 2 >>> 8
      ∧ DemoteImageOldSchool exampleDest exampleSrc 7 2 64 32 (1 * 32 + 4 * 6 + 1)
        = srcChannel exampleSrc (1 * 64 + 8 * 6) 1 >>> 8
      ∧ DemoteImageOldSchool exampleDest exampleSrc 7 2 64 32 (1 * 32 + 4 * 6 + 2)
        = srcChannel exampleSrc (1 * 64 + 8 * 6) 0 >>> 8
      ∧ DemoteImageOldSchool exampleDest exampleSrc 7 2 64 32 (1 * 32 + 4 * 6 + 3)
        = srcChannel exampleSrc (1 * 64 + 8 * 6) 3 >>> 8 :=
  ⟨by decide, DemoteImageOldSchool_pixels exampleDest exampleSrc 7 2 64 32 (by decide)
    (by decide) (by decide) 1 6 (by decide) (by decide)⟩

/-- C3. Vectorized kernel, whole image: with srcSpan >= width*8 and
destSpan >= width*4, after `DemoteImageInParallel` the four destination bytes
at offset i*destSpan + 4*x, for every row i < height and column x < width, are
(B >> 8, G >> 8, R >> 8, A >> 8) of the source pixel at offset
i*srcSpan + 8*x, for every width, height and source content. -/
theorem DemoteImageInParallel_pixels (dest src : Mem) (width height srcSpan destSpan : Nat)
    (hsrc : width * 8 ≤ srcSpan) (hdest : width * 4 ≤ destSpan) (hint : srcSpan < 2 ^ 31)
    (i x : Nat) (hi : i < height) (hx : x < width) :
    DemoteImageInParallel dest src width height srcSpan destSpan (i * destSpan + 4 * x)
        = srcChannel src (i * srcSpan + 8 * x) 2 >>> 8
      ∧ DemoteImageInParallel dest src width height srcSpan destSpan (i * destSpan + 4 * x + 1)
        = srcChannel src (i * srcSpan + 8 * x) 1 >>> 8
      ∧ DemoteImageInParallel dest src width height srcSpan destSpan (i * destSpan + 4 * x + 2)
        = srcChannel src (i * srcSpan + 8 * x) 0 >>> 8
      ∧ DemoteImageInParallel dest src width height srcSpan destSpan (i * destSpan + 4 * x + 3)
        = srcChannel src (i * srcSpan + 8 * x) 3 >>> 8 :=
  parallel_pixels dest src width height srcSpan destSpan hsrc hdest hint i x hi hx

/-- C3 at a 15 x 2 image with tightly packed rows, last pixel of the first row
(the 8-, 4-, 2- and 1-pixel tiers all run, and the next row starts right
behind). -/
theorem DemoteImageInParallel_pixels_witness :
    (15 * 8 ≤ 120 ∧ 15 * 4 ≤ 60 ∧ 120 < 2 ^ 31 ∧ 0 < 2 ∧ 14 < 15)
      ∧ DemoteImageInParallel exampleDest exampleSrc 15 2 120 60 (0 * 60 + 4 * 14)
        = srcChannel exampleSrc (0 * 120 + 8 * 14) 2 >>> 8
      ∧ DemoteImageInParallel exampleDest exampleSrc 15 2 120 60 (0 * 60 + 4 * 14 + 1)
        = srcChannel exampleSrc (0 * 120 + 8 * 14) 1 >>> 8
      ∧ DemoteImageInParallel exampleDest exampleSrc 15 2 120 60 (0 * 60 + 4 * 14 + 2)
        = srcChannel exampleSrc (0 * 120 + 8 * 14) 0 >>> 8
      ∧ DemoteImageInParallel exampleDest exampleSrc 15 2 120 60 (0 * 60 + 4 * 14 + 3)
        = srcChannel exampleSrc (0 * 120 + 8 * 14) 3 >>> 8 :=
  ⟨by decide, DemoteImageInParallel_pixels exampleDest exampleSrc 15 2 120 60 (by decide)
    (by decide) (by decide) 0 14 (by decide) (by decide)⟩

/-- C4, the code at a failing input. One pixel, one row, srcSpan 8, destSpan 16,
every destination byte 0xFF before the call: byte 4, a padding byte inside the
16-byte destination buffer, is 0 after `DemoteImageInParallel` and still 0xFF
after `DemoteImageOldSchool`, so the two kernels do not leave byte-identical
buffers. -/
theorem kernels_differ_in_padding :
    (1 * 8 ≤ 8 ∧ 1 * 4 ≤ 16 ∧ 4 < 1 * 16)
      ∧ DemoteImageInParallel exampleDest exampleSrc 1 1 8 16 4 = 0
      ∧ DemoteImageOldSchool exampleDest exampleSrc 1 1 8 16 4 = 0xFF
      ∧ DemoteImageInParallel exampleDest exampleSrc 1 1 8 16
          ≠ DemoteImageOldSchool exampleDest exampleSrc 1 1 8 16 := by
  have hp : DemoteImageInParallel exampleDest exampleSrc 1 1 8 16 4 = 0 := by
    rw [parallel_single_row _ _ _ _ _ (by norm_num)]
    decide
  have ho : DemoteImageOldSchool exampleDest exampleSrc 1 1 8 16 4 = 0xFF := by
    rw [oldSchool_single_row _ _ _ _ _ (by norm_num)]
    decide
  refine ⟨by decide, hp, ho, ?_⟩
  intro h
  rw [h, ho] at hp
  exact absurd hp (by decide)

/-- C5, the code at a failing input. On a snapshot that reports AVX the
dispatcher runs the vectorized kernel, whose 1-pixel tail stores 16 bytes, not
4, and whose 2-pixel tail stores 16 bytes, not 8: with one row of destSpan 16
and every destination byte 0xFF before the call, width 1 leaves 0 in byte 4 and
width 2 leaves 0 in byte 8, both outside the row's pixel area. -/
theorem vector_tails_write_padding :
    CpuId.ctor exampleCpu exampleUninit = some exampleSnapshot
      ∧ exampleSnapshot.HasAVX = true
      ∧ (1 * 8 ≤ 8 ∧ 1 * 4 ≤ 16 ∧ ¬ (4 < 4 * 1) ∧ 4 < 1 * 16)
      ∧ DemoteImage16To8 exampleSnapshot exampleDest exampleSrc 1 1 8 16 4 = 0
      ∧ exampleDest 4 = 0xFF
      ∧ (2 * 8 ≤ 16 ∧ 2 * 4 ≤ 16 ∧ ¬ (8 < 4 * 2) ∧ 8 < 1 * 16)
      ∧ DemoteImage16To8 exampleSnapshot exampleDest exampleSrc 2 1 16 16 8 = 0
      ∧ exampleDest 8 = 0xFF := by
  have hA : exampleSnapshot.HasAVX = true := by decide
  refine ⟨by decide, hA, by decide, ?_, rfl, by decide, ?_, rfl⟩
  · unfold DemoteImage16To8
    rw [if_pos hA, parallel_single_row _ _ _ _ _ (by norm_num)]
    decide
  · unfold DemoteImage16To8
    rw [if_pos hA, parallel_single_row _ _ _ _ _ (by norm_num)]
    decide

/-- C6. Capability gating: `HasAVX` is bit 28 of the cached leaf-1 ECX; for
every snapshot and every valid input `DemoteImage16To8` leaves exactly the
buffer of `DemoteImageInParallel` when `HasAVX` is true and exactly the buffer
of `DemoteImageOldSchool` when it is false; in both cases the destination
pixels equal the per-pixel formula, so the destination pixels are the same for
any two snapshots `s` and `t`, whatever their gating flags. -/
theorem DemoteImage16To8_gating (s t : CpuId) (dest src : Mem)
    (width height srcSpan destSpan : Nat) (hsrc : width * 8 ≤ srcSpan)
    (hdest : width * 4 ≤ destSpan) (hint : srcSpan < 2 ^ 31) (i x : Nat) (hi : i < height)
    (hx : x < width) :
    s.HasAVX = s.function_1_ecx.testBit 28
      ∧ (s.HasAVX = true → DemoteImage16To8 s dest src width height srcSpan destSpan
          = DemoteImageInParallel dest src width height srcSpan destSpan)
      ∧ (s.HasAVX = false → DemoteImage16To8 s dest src width height srcSpan destSpan
          = DemoteImageOldSchool dest src width height srcSpan destSpan)
      ∧ (DemoteImage16To8 s dest src width height srcSpan destSpan (i * destSpan + 4 * x)
          = srcChannel src (i * srcSpan + 8 * x) 2 >>> 8
        ∧ DemoteImage16To8 s dest src width height srcSpan destSpan (i * destSpan + 4 * x + 1)
          = srcChannel src (i * srcSpan + 8 * x) 1 >>> 8
        ∧ DemoteImage16To8 s dest src width height srcSpan destSpan (i * destSpan + 4 * x + 2)
          = srcChannel src (i * srcSpan + 8 * x) 0 >>> 8
        ∧ DemoteImage16To8 s dest src width height srcSpan destSpan (i * destSpan + 4 * x + 3)
          = srcChannel src (i * srcSpan + 8 * x) 3 >>> 8)
      ∧ (DemoteImage16To8 s dest src width height srcSpan destSpan (i * destSpan + 4 * x)
          = DemoteImage16To8 t dest src width height srcSpan destSpan (i * destSpan + 4 * x)
        ∧ DemoteImage16To8 s dest src width height srcSpan destSpan (i * destSpan + 4 * x + 1)
          = DemoteImage16To8 t dest src width height srcSpan destSpan (i * destSpan + 4 * x + 1)
        ∧ DemoteImage16To8 s dest src width height srcSpan destSpan (i * destSpan + 4 * x + 2)
          = DemoteImage16To8 t dest src width height srcSpan destSpan (i * destSpan + 4 * x + 2)
        ∧ DemoteImage16To8 s dest src width height srcSpan destSpan (i * destSpan + 4 * x + 3)
          = DemoteImage16To8 t dest src width height srcSpan destSpan
              (i * destSpan + 4 * x + 3)) := by
  have hs := dispatch_pixels s dest src width height srcSpan destSpan hsrc hdest hint i x hi hx
  have ht := dispatch_pixels t dest src width height srcSpan destSpan hsrc hdest hint i x hi hx
  refine ⟨and_shift_ne_zero _ _, ?_, ?_, hs, ?_⟩
  · intro h
    unfold DemoteImage16To8
    rw [if_pos h]
  · intro h
    unfold DemoteImage16To8
    rw [if_neg (by simp [h])]
  · exact ⟨hs.1.trans ht.1.symm, hs.2.1.trans ht.2.1.symm, hs.2.2.1.trans ht.2.2.1.symm,
      hs.2.2.2.trans ht.2.2.2.symm⟩

/-- C6 at a snapshot that reports AVX and one that does not, on a 7 x 2 image:
the first runs the vectorized kernel, the second the scalar one, and the first
byte of the last pixel of the second row is the same. -/
theorem DemoteImage16To8_gating_witness :
    (7 * 8 ≤ 64 ∧ 7 * 4 ≤ 32 ∧ 64 < 2 ^ 31 ∧ 1 < 2 ∧ 6 < 7)
      ∧ exampleSnapshot.HasAVX = true ∧ zeroSnapshot.HasAVX = false
      ∧ DemoteImage16To8 exampleSnapshot exampleDest exampleSrc 7 2 64 32
          = DemoteImageInParallel exampleDest exampleSrc 7 2 64 32
      ∧ DemoteImage16To8 zeroSnapshot exampleDest exampleSrc 7 2 64 32
          = DemoteImageOldSchool exampleDest exampleSrc 7 2 64 32
      ∧ DemoteImage16To8 exampleSnapshot exampleDest exampleSrc 7 2 64 32 (1 * 32 + 4 * 6)
          = DemoteImage16To8 zeroSnapshot exampleDest exampleSrc 7 2 64 32 (1 * 32 + 4 * 6) :=
  have h := DemoteImage16To8_gating exampleSnapshot zeroSnapshot exampleDest exampleSrc
    7 2 64 32 (by decide) (by decide) (by decide) 1 6 (by decide) (by decide)
  have h' := DemoteImage16To8_gating zeroSnapshot exampleSnapshot exampleDest exampleSrc
    7 2 64 32 (by decide) (by decide) (by decide) 1 6 (by decide) (by decide)
  ⟨by decide, by decide, by decide, h.2.1 (by decide), h'.2.2.1 (by decide), h.2.2.2.2.1⟩

/-- C7, the code at a failing input. On the example processor the extended
count is EAX of leaf 0x80000000 with the top bit masked off (4), but the
retained extended record 1 is the result of the query at leaf 1, not at leaf
0x80000001: the loop passes `i`, not `0x80000000 + i`. The cached extended ECX
is therefore that of leaf 1, and `HasLAHF` is false although leaf 0x80000001
reports LAHF. -/
theorem extended_loop_queries_base_leaves :
    CpuId.ctor exampleCpu exampleUninit = some exampleSnapshot
      ∧ exampleSnapshot.numExtendedIds = (__cpuid exampleCpu 0x80000000).eax &&& 0x7FFFFFFF
      ∧ exampleSnapshot.numExtendedIds = 4
      ∧ leafAt exampleSnapshot.extendedData 1 = __cpuidex exampleCpu 1 0
      ∧ leafAt exampleSnapshot.extendedData 1 ≠ __cpuidex exampleCpu (0x80000000 + 1) 0
      ∧ exampleSnapshot.extendedFunction_1_ecx = (__cpuidex exampleCpu 1 0).ecx
      ∧ (__cpuidex exampleCpu (0x80000000 + 1) 0).ecx.testBit 0 = true
      ∧ exampleSnapshot.HasLAHF = false := by
  decide

/-- C8. Vendor identifier and classification: in every constructed snapshot
the 64-byte vendor buffer starts with the 12 bytes of EBX, EDX and ECX of
the leaf-0 query, in that order and low byte first, followed by a zero byte;
the snapshot is classified Intel iff those 12 bytes are "GenuineIntel" and AMD
iff they are "AuthenticAMD" (equivalently, iff the C string in the buffer
equals the identifier), and never both. -/
theorem vendor_identifier (cpu : Cpu) (u : Uninit) (s : CpuId)
    (h : CpuId.ctor cpu u = some s) :
    s.vendor.length = 64
      ∧ s.vendor.take 13 = bytes32 (__cpuid cpu 0).ebx ++ bytes32 (__cpuid cpu 0).edx
          ++ bytes32 (__cpuid cpu 0).ecx ++ [0]
      ∧ (s.isIntel = true ↔ s.vendor.take 12 = literal "GenuineIntel")
      ∧ (s.isAMD = true ↔ s.vendor.take 12 = literal "AuthenticAMD")
      ∧ (s.isIntel = true ↔ cstr s.vendor = literal "GenuineIntel")
      ∧ (s.isAMD = true ↔ cstr s.vendor = literal "AuthenticAMD")
      ∧ ¬ (s.isIntel = true ∧ s.isAMD = true) := by
  obtain ⟨_, _, _, _, _, _, hv, hI, hA, _⟩ := ctor_some cpu u s h
  have e1 : s.isIntel = true ↔ cstr s.vendor = literal "GenuineIntel" := by
    rw [hI]; exact strEq_iff _ _
  have e2 : s.isAMD = true ↔ cstr s.vendor = literal "AuthenticAMD" := by
    rw [hA]; exact strEq_iff _ _
  have ht : s.vendor.take 12 = bytes32 (__cpuid cpu 0).ebx ++ bytes32 (__cpuid cpu 0).edx
      ++ bytes32 (__cpuid cpu 0).ecx := by
    rw [hv]; rfl
  have c1 := cstr_vendor_iff (bytes32 (__cpuid cpu 0).ebx ++ bytes32 (__cpuid cpu 0).edx
      ++ bytes32 (__cpuid cpu 0).ecx) rfl (literal "GenuineIntel") (by decide) (by decide)
  have c2 := cstr_vendor_iff (bytes32 (__cpuid cpu 0).ebx ++ bytes32 (__cpuid cpu 0).edx
      ++ bytes32 (__cpuid cpu 0).ecx) rfl (literal "AuthenticAMD") (by decide) (by decide)
  rw [← hv, ← ht] at c1 c2
  refine ⟨?_, ?_, e1.trans c1, e2.trans c2, e1, e2, ?_⟩
  · rw [hv]; rfl
  · rw [hv]; rfl
  · rintro ⟨a, b⟩
    have := (e1.mp a).symm.trans (e2.mp b)
    revert this
    decide

/-- C8 at the example processor: EBX=0x756E6547, EDX=0x49656E69,
ECX=0x6C65746E gives "GenuineIntel", classified Intel and not AMD. -/
theorem vendor_identifier_witness :
    (__cpuid exampleCpu 0).ebx = 0x756E6547 ∧ (__cpuid exampleCpu 0).edx = 0x49656E69
      ∧ (__cpuid exampleCpu 0).ecx = 0x6C65746E
      ∧ CpuId.ctor exampleCpu exampleUninit = some exampleSnapshot
      ∧ exampleSnapshot.vendor.take 13 = literal "GenuineIntel" ++ [0]
      ∧ exampleSnapshot.isIntel = true ∧ exampleSnapshot.isAMD = false :=
  have h := vendor_identifier exampleCpu exampleUninit exampleSnapshot (by decide)
  ⟨by decide, by decide, by decide, by decide, h.2.1.trans (by decide),
    h.2.2.1.mpr (by decide), by decide⟩

/-- C9. Vendor gating: in every constructed snapshot whose vendor string is
neither "GenuineIntel" nor "AuthenticAMD" each of the twelve vendor-gated
queries is false, whatever the cached registers hold; and each such query is
true iff the vendor string is the one it is gated on and the single tested bit
of its cached register is set. -/
theorem vendor_gated_queries (cpu : Cpu) (u : Uninit) (s : CpuId)
    (h : CpuId.ctor cpu u = some s) :
    ((cstr s.vendor ≠ literal "GenuineIntel" ∧ cstr s.vendor ≠ literal "AuthenticAMD") →
        s.HasHLE = false ∧ s.HasRTM = false ∧ s.HasLZCNT = false ∧ s.HasABM = false
          ∧ s.HasSSE4a = false ∧ s.HasXOP = false ∧ s.HasTBM = false ∧ s.HasSYSCALL = false
          ∧ s.HasMMXEXT = false ∧ s.HasRDTSCP = false ∧ s.Has3DNOWEXT = false
          ∧ s.Has3DNOW = false)
      ∧ (s.HasHLE = true ↔
          cstr s.vendor = literal "GenuineIntel" ∧ s.function_7_ebx.testBit 4 = true)
      ∧ (s.HasRTM = true ↔
          cstr s.vendor = literal "GenuineIntel" ∧ s.function_7_ebx.testBit 11 = true)
      ∧ (s.HasLZCNT = true ↔
          cstr s.vendor = literal "GenuineIntel" ∧ s.extendedFunction_1_ecx.testBit 5 = true)
      ∧ (s.HasABM = true ↔
          cstr s.vendor = literal "AuthenticAMD" ∧ s.extendedFunction_1_ecx.testBit 5 = true)
      ∧ (s.HasSSE4a = true ↔
          cstr s.vendor = literal "AuthenticAMD" ∧ s.extendedFunction_1_ecx.testBit 6 = true)
      ∧ (s.HasXOP = true ↔
          cstr s.vendor = literal "AuthenticAMD" ∧ s.extendedFunction_1_ecx.testBit 11 = true)
      ∧ (s.HasTBM = true ↔
          cstr s.vendor = literal "AuthenticAMD" ∧ s.extendedFunction_1_ecx.testBit 21 = true)
      ∧ (s.HasSYSCALL = true ↔
          cstr s.vendor = literal "GenuineIntel" ∧ s.extendedFunction_1_edx.testBit 11 = true)
      ∧ (s.HasMMXEXT = true ↔
          cstr s.vendor = literal "AuthenticAMD" ∧ s.extendedFunction_1_edx.testBit 22 = true)
      ∧ (s.HasRDTSCP = true ↔
          cstr s.vendor = literal "GenuineIntel" ∧ s.extendedFunction_1_edx.testBit 27 = true)
      ∧ (s.Has3DNOWEXT = true ↔
          cstr s.vendor = literal "AuthenticAMD" ∧ s.extendedFunction_1_edx.testBit 30 = true)
      ∧ (s.Has3DNOW = true ↔
          cstr s.vendor = literal "AuthenticAMD" ∧ s.extendedFunction_1_edx.testBit 31 = true) := by
  obtain ⟨_, _, _, _, _, _, _, hI, hA, _⟩ := ctor_some cpu u s h
  have eI : s.isIntel = true ↔ cstr s.vendor = literal "GenuineIntel" := by
    rw [hI]; exact strEq_iff _ _
  have eA : s.isAMD = true ↔ cstr s.vendor = literal "AuthenticAMD" := by
    rw [hA]; exact strEq_iff _ _
  have q1 : s.HasHLE = true ↔ _ := (gated_iff s.isIntel s.function_7_ebx 4).trans (and_congr_left' eI)
  have q2 : s.HasRTM = true ↔ _ := (gated_iff s.isIntel s.function_7_ebx 11).trans (and_congr_left' eI)
  have q3 : s.HasLZCNT = true ↔ _ :=
    (gated_iff s.isIntel s.extendedFunction_1_ecx 5).trans (and_congr_left' eI)
  have q4 : s.HasABM = true ↔ _ :=
    (gated_iff s.isAMD s.extendedFunction_1_ecx 5).trans (and_congr_left' eA)
  have q5 : s.HasSSE4a = true ↔ _ :=
    (gated_iff s.isAMD s.extendedFunction_1_ecx 6).trans (and_congr_left' eA)
  have q6 : s.HasXOP = true ↔ _ :=
    (gated_iff s.isAMD s.extendedFunction_1_ecx 11).trans (and_congr_left' eA)
  have q7 : s.HasTBM = true ↔ _ :=
    (gated_iff s.isAMD s.extendedFunction_1_ecx 21).trans (and_congr_left' eA)
  have q8 : s.HasSYSCALL = true ↔ _ :=
    (gated_iff s.isIntel s.extendedFunction_1_edx 11).trans (and_congr_left' eI)
  have q9 : s.HasMMXEXT = true ↔ _ :=
    (gated_iff s.isAMD s.extendedFunction_1_edx 22).trans (and_congr_left' eA)
  have q10 : s.HasRDTSCP = true ↔ _ :=
    (gated_iff s.isIntel s.extendedFunction_1_edx 27).trans (and_congr_left' eI)
  have q11 : s.Has3DNOWEXT = true ↔ _ :=
    (gated_iff s.isAMD s.extendedFunction_1_edx 30).trans (and_congr_left' eA)
  have q12 : s.Has3DNOW = true ↔ _ :=
    (gated_iff s.isAMD s.extendedFunction_1_edx 31).trans (and_congr_left' eA)
  refine ⟨?_, q1, q2, q3, q4, q5, q6, q7, q8, q9, q10, q11, q12⟩
  rintro ⟨nI, nA⟩
  have f : ∀ (b : Bool) (P Q : Prop), (b = true ↔ P ∧ Q) → ¬ P → b = false := by
    intro b P Q hb hP
    cases b
    · rfl
    · exact absurd (hb.mp rfl).1 hP
  exact ⟨f _ _ _ q1 nI, f _ _ _ q2 nI, f _ _ _ q3 nI, f _ _ _ q4 nA, f _ _ _ q5 nA,
    f _ _ _ q6 nA, f _ _ _ q7 nA, f _ _ _ q8 nI, f _ _ _ q9 nA, f _ _ _ q10 nI,
    f _ _ _ q11 nA, f _ _ _ q12 nA⟩

/-- C9 at a processor of an unlisted vendor whose cached registers are all
ones (every gated query false), and at the example Intel processor. -/
theorem vendor_gated_queries_witness :
    (CpuId.ctor plainCpu onesUninit = some plainSnapshot
      ∧ cstr plainSnapshot.vendor = literal "CentaurHauls"
      ∧ plainSnapshot.extendedFunction_1_ecx = 0xFFFFFFFF
      ∧ plainSnapshot.HasHLE = false ∧ plainSnapshot.HasRTM = false
      ∧ plainSnapshot.HasLZCNT = false ∧ plainSnapshot.HasABM = false
      ∧ plainSnapshot.HasSSE4a = false ∧ plainSnapshot.HasXOP = false
      ∧ plainSnapshot.HasTBM = false ∧ plainSnapshot.HasSYSCALL = false
      ∧ plainSnapshot.HasMMXEXT = false ∧ plainSnapshot.HasRDTSCP = false
      ∧ plainSnapshot.Has3DNOWEXT = false ∧ plainSnapshot.Has3DNOW = false)
      ∧ (CpuId.ctor exampleCpu exampleUninit = some exampleSnapshot
        ∧ (exampleSnapshot.HasHLE = true ↔
          cstr exampleSnapshot.vendor = literal "GenuineIntel"
            ∧ exampleSnapshot.function_7_ebx.testBit 4 = true)) :=
  ⟨⟨by decide, by decide, by decide,
      (vendor_gated_queries plainCpu onesUninit plainSnapshot (by decide)).1 (by decide)⟩,
    ⟨by decide, (vendor_gated_queries exampleCpu exampleUninit exampleSnapshot (by decide)).2.1⟩⟩

/-- C10. Brand string: in every constructed snapshot the brand buffer has 64
bytes and byte 63 is zero; if the extended count is at least 4 the buffer is
the 48 bytes of the retained extended records 2, 3 and 4 in that order (each
as EAX, EBX, ECX, EDX, low byte first) followed by 16 zero bytes; if it is
below 4 the buffer is all zero. -/
theorem brand_string (cpu : Cpu) (u : Uninit) (s : CpuId) (h : CpuId.ctor cpu u = some s) :
    s.brand.length = 64
      ∧ s.brand.get? 63 = some 0
      ∧ (4 ≤ s.numExtendedIds →
          4 < s.extendedData.length
          ∧ s.brand = (leafAt s.extendedData 2).bytes ++ (leafAt s.extendedData 3).bytes
              ++ (leafAt s.extendedData 4).bytes ++ List.replicate 16 0)
      ∧ (s.numExtendedIds < 4 → s.brand = List.replicate 64 0) := by
  obtain ⟨_, _, _, _, _, hx, _, _, _, hb⟩ := ctor_some cpu u s h
  by_cases h4 : 4 ≤ s.numExtendedIds
  · rw [if_pos h4] at hb
    refine ⟨?_, ?_, ?_, ?_⟩
    · rw [hb]; rfl
    · rw [hb]; rfl
    · intro _
      refine ⟨?_, hb⟩
      rw [hx, queryLeaves_length]
      omega
    · intro h'
      omega
  · rw [if_neg h4] at hb
    refine ⟨?_, ?_, ?_, ?_⟩
    · rw [hb]; rfl
    · rw [hb]; rfl
    · intro h'
      omega
    · intro _
      exact hb

/-- C10 at the example processor (extended count 4) and at a processor with
extended count 0. -/
theorem brand_string_witness :
    (CpuId.ctor exampleCpu exampleUninit = some exampleSnapshot
      ∧ 4 ≤ exampleSnapshot.numExtendedIds
      ∧ exampleSnapshot.brand = (leafAt exampleSnapshot.extendedData 2).bytes
          ++ (leafAt exampleSnapshot.extendedData 3).bytes
          ++ (leafAt exampleSnapshot.extendedData 4).bytes ++ List.replicate 16 0)
      ∧ (CpuId.ctor plainCpu onesUninit = some plainSnapshot
        ∧ plainSnapshot.numExtendedIds < 4
        ∧ plainSnapshot.brand = List.replicate 64 0) :=
  ⟨⟨by decide, by decide,
      ((brand_string exampleCpu exampleUninit exampleSnapshot (by decide)).2.2.1
        (by decide)).2⟩,
    ⟨by decide, by decide,
      (brand_string plainCpu onesUninit plainSnapshot (by decide)).2.2.2 (by decide)⟩⟩

/-! ## Lemmas for the singleton, the gate and the memory accesses -/

theorem Instance_first (cpu : Cpu) (u : Uninit) (s : CpuId) (h : CpuId.ctor cpu u = some s) :
    CpuId.Instance cpu u none = some (s, some s, CpuId.ctorQueries cpu) := by
  simp [CpuId.Instance, h]

theorem Instance_later (cpu : Cpu) (u : Uninit) (s : CpuId) :
    CpuId.Instance cpu u (some s) = some (s, some s, []) := rfl

theorem InstanceCalls_later (cpu : Cpu) (u : Uninit) (s : CpuId) (n : Nat) :
    CpuId.InstanceCalls cpu u n (some s) = some (List.replicate n s, some s, []) := by
  induction n with
  | zero => rfl
  | succ n ih =>
    rw [CpuId.InstanceCalls, Instance_later]
    simp only [ih]
    rfl

theorem loadl_eq (m : Mem) (a : Nat) : _mm_loadl_epi64 m a =
    [readByte m (a+0), readByte m (a+1), readByte m (a+2), readByte m (a+3),
     readByte m (a+4), readByte m (a+5), readByte m (a+6), readByte m (a+7),
     0, 0, 0, 0, 0, 0, 0, 0] := rfl

theorem le64_take (m : Mem) (a : Nat) : le64 ((_mm_loadu_si128 m a).take 8) = load64 m a := by
  rw [loadu_eq]
  rfl

theorem le64_drop (m : Mem) (a : Nat) :
    le64 ((_mm_loadu_si128 m a).drop 8) = load64 m (a + 8) := by
  rw [loadu_eq]
  simp [le64, load64, Nat.add_assoc]

theorem loadu_of_bytes (c : List Nat) (hc : c.length = 16) (hb : ∀ b ∈ c, b < 256) :
    _mm_loadu_si128 (fun k => c.getD k 0) 0 = c := by
  apply List.ext_getElem
  · simp [_mm_loadu_si128, hc]
  · intro i h1 h2
    simp only [_mm_loadu_si128, List.getElem_map, List.getElem_range, readByte, Nat.zero_add]
    rw [List.getD_eq_getElem _ _ h2]
    exact Nat.mod_eq_of_lt (hb _ (List.getElem_mem _))

theorem loadedBytes_append (l1 l2 : List Access) :
    loadedBytes (l1 ++ l2) = loadedBytes l1 ++ loadedBytes l2 := by
  induction l1 with
  | nil => rfl
  | cons a l ih =>
    cases a with
    | load a n => simp [loadedBytes, ih]
    | store a n => simp [loadedBytes, ih]

theorem storedBytes_append (l1 l2 : List Access) :
    storedBytes (l1 ++ l2) = storedBytes l1 ++ storedBytes l2 := by
  induction l1 with
  | nil => rfl
  | cons a l ih =>
    cases a with
    | load a n => simp [storedBytes, ih]
    | store a n => simp [storedBytes, ih]

theorem range'_join (a m b n : Nat) (h : b = a + m) :
    List.range' a m ++ List.range' b n = List.range' a (m + n) := by
  rw [h, List.range'_append_1, Nat.add_comm]

theorem parallelLoopT_fst (src : Mem) (srcEnd : Nat) (s : RowState) :
    (parallelLoopT src srcEnd s).1 = parallelLoop src srcEnd s := by
  induction s using parallelLoop.induct src srcEnd with
  | case1 s h v12 v34 v56 v78 r12 r34 r56 r78 fused1 fused2 d1 d2 ih =>
    rw [parallelLoopT, parallelLoop, if_pos h, if_pos h]
    exact ih
  | case2 s h =>
    rw [parallelLoopT, parallelLoop, if_neg h, if_neg h]

theorem oldSchoolLoopT_fst (src : Mem) (srcEnd : Nat) (s : RowState) :
    (oldSchoolLoopT src srcEnd s).1 = oldSchoolLoop src srcEnd s := by
  induction s using oldSchoolLoop.induct src srcEnd with
  | case1 s h d1 d2 d3 d4 ih =>
    rw [oldSchoolLoopT, oldSchoolLoop, if_pos h, if_pos h]
    exact ih
  | case2 s h =>
    rw [oldSchoolLoopT, oldSchoolLoop, if_neg h, if_neg h]

theorem parallelLoopT_log (src : Mem) (dp sp : Nat) :
    ∀ (k c : Nat) (s : RowState), s.destPtr = dp + 4 * c → s.srcPtr = sp + 8 * c →
      loadedBytes (parallelLoopT src (sp + 8 * c + 64 * k) s).2 = List.range' (sp + 8 * c) (64 * k)
      ∧ storedBytes (parallelLoopT src (sp + 8 * c + 64 * k) s).2
          = List.range' (dp + 4 * c) (32 * k) := by
  intro k
  induction k with
  | zero =>
    intro c s hp hs
    rw [parallelLoopT, if_neg (by omega)]
    exact ⟨rfl, rfl⟩
  | succ k ih =>
    intro c s hp hs
    rw [parallelLoopT, if_pos (by omega)]
    simp only [loadedBytes_append, storedBytes_append]
    have e3 : sp + 8 * c + 64 * (k + 1) = sp + 8 * (c + 8) + 64 * k := by omega
    rw [e3]
    obtain ⟨i1, i2⟩ := ih (c + 8) ⟨_mm_storeu_si128 (_mm_storeu_si128 s.dest s.destPtr
        (_mm_or_si128 (_mm_shuffle_epi8 (_mm_loadu_si128 src s.srcPtr) shuffler1)
          (_mm_shuffle_epi8 (_mm_loadu_si128 src (s.srcPtr + 16)) shuffler2)))
        (s.destPtr + 16)
        (_mm_or_si128 (_mm_shuffle_epi8 (_mm_loadu_si128 src (s.srcPtr + 32)) shuffler1)
          (_mm_shuffle_epi8 (_mm_loadu_si128 src (s.srcPtr + 48)) shuffler2)),
        s.destPtr + 32, s.srcPtr + 64⟩ (by show s.destPtr + 32 = _; omega)
      (by show s.srcPtr + 64 = _; omega)
    rw [i1, i2, hp, hs]
    simp only [loadedBytes, storedBytes, List.append_nil]
    constructor
    · rw [range'_join _ _ _ _ rfl, range'_join _ _ _ _ (by omega),
        range'_join _ _ _ _ (by omega), range'_join _ _ _ _ (by omega)]
      congr 1
      omega
    · rw [range'_join _ _ _ _ rfl, range'_join _ _ _ _ (by omega)]
      congr 1
      omega

theorem oldSchoolLoopT_log (src : Mem) (dp sp : Nat) :
    ∀ (k c : Nat) (s : RowState), s.destPtr = dp + 4 * c → s.srcPtr = sp + 8 * c →
      loadedBytes (oldSchoolLoopT src (sp + 8 * c + 32 * k) s).2 = List.range' (sp + 8 * c) (32 * k)
      ∧ storedBytes (oldSchoolLoopT src (sp + 8 * c + 32 * k) s).2
          = List.range' (dp + 4 * c) (16 * k) := by
  intro k
  induction k with
  | zero =>
    intro c s hp hs
    rw [oldSchoolLoopT, if_neg (by omega)]
    exact ⟨rfl, rfl⟩
  | succ k ih =>
    intro c s hp hs
    rw [oldSchoolLoopT, if_pos (by omega)]
    simp only [loadedBytes_append, storedBytes_append]
    have e3 : sp + 8 * c + 32 * (k + 1) = sp + 8 * (c + 4) + 32 * k := by omega
    rw [e3]
    obtain ⟨i1, i2⟩ := ih (c + 4) ⟨scalarPixel src s.srcPtr s.destPtr 3
        (scalarPixel src s.srcPtr s.destPtr 2 (scalarPixel src s.srcPtr s.destPtr 1
          (scalarPixel src s.srcPtr s.destPtr 0 s.dest))),
        s.destPtr + 16, s.srcPtr + 32⟩ (by show s.destPtr + 16 = _; omega)
      (by show s.srcPtr + 32 = _; omega)
    rw [i1, i2, hp, hs]
    simp only [loadedBytes, storedBytes, List.append_nil]
    constructor
    · rw [range'_join _ _ _ _ rfl, range'_join _ _ _ _ (by omega),
        range'_join _ _ _ _ (by omega), range'_join _ _ _ _ (by omega)]
      congr 1
      omega
    · rw [range'_join _ _ _ _ rfl, range'_join _ _ _ _ (by omega),
        range'_join _ _ _ _ (by omega), range'_join _ _ _ _ (by omega)]
      congr 1
      omega

theorem and_pow_eq (w i : Nat) : w &&& 2 ^ i = 2 ^ i * (w / 2 ^ i % 2) := by
  rw [Nat.and_two_pow, Nat.testBit_to_div_mod, Nat.mul_comm]
  rcases Nat.mod_two_eq_zero_or_one (w / 2 ^ i) with h | h <;> simp [h]

theorem and_four_eq (w : Nat) : w &&& 4 = 4 * (w / 4 % 2) := and_pow_eq w 2
theorem and_two_eq (w : Nat) : w &&& 2 = 2 * (w / 2 % 2) := and_pow_eq w 1
theorem and_one_eq (w : Nat) : w &&& 1 = w % 2 := by
  have h := and_pow_eq w 0
  rw [Nat.pow_zero, Nat.div_one, Nat.one_mul] at h
  exact h

/-- The state of the vectorized row after the loop. -/
theorem parallel_stage8 (src dest : Mem) (dp sp w : Nat) (hw : w < 2 ^ 32) :
    RowAt src dest dp sp (w &&& notSeven) 0
      (parallelLoop src (sp + (w &&& notSeven) * 4 * 2) ⟨dest, dp, sp⟩) := by
  have h1 := parallelLoop_spec src dest dp sp (w / 8) 0 ⟨dest, dp, sp⟩ (rowAt_start src dest dp sp)
  rw [and_notSeven w hw]
  have e : sp + 8 * (w / 8) * 4 * 2 = sp + 8 * 0 + 64 * (w / 8) := by omega
  rw [e]
  rw [Nat.zero_add] at h1
  exact h1

theorem parallel_stage4 (src dest : Mem) (dp sp w c : Nat) (s : RowState)
    (h : RowAt src dest dp sp c 0 s) :
    RowAt src dest dp sp (c + (w &&& 4)) 0
      (if w &&& 4 ≠ 0 then parallelTail4 src s else s) := by
  by_cases b : w &&& 4 ≠ 0
  · rw [if_pos b]
    have e : w &&& 4 = 4 := by
      have := and_four_eq w
      omega
    rw [e]
    exact parallelTail4_spec _ _ _ _ _ _ h
  · rw [if_neg b]
    have e : w &&& 4 = 0 := by omega
    rw [e]
    exact h

theorem parallel_stage2 (src dest : Mem) (dp sp w c : Nat) (s : RowState)
    (h : RowAt src dest dp sp c 0 s) :
    RowAt src dest dp sp (c + (w &&& 2)) (if w &&& 2 ≠ 0 then 8 else 0)
      (if w &&& 2 ≠ 0 then parallelTail2 src s else s) := by
  by_cases b : w &&& 2 ≠ 0
  · rw [if_pos b, if_pos b]
    have e : w &&& 2 = 2 := by
      have := and_two_eq w
      omega
    rw [e]
    exact parallelTail2_spec _ _ _ _ _ _ h
  · rw [if_neg b, if_neg b]
    have e : w &&& 2 = 0 := by omega
    rw [e]
    exact h

theorem width_tiers (w : Nat) (hw : w < 2 ^ 32) :
    (w &&& notSeven) + (w &&& 4) + (w &&& 2) + (w &&& 1) = w
      ∧ (w &&& notThree) + (w &&& 2) + (w &&& 1) = w := by
  rw [and_notSeven w hw, and_notThree w hw, and_four_eq, and_two_eq, and_one_eq]
  omega

theorem parallelRowT_fst (src dest : Mem) (w dp sp : Nat) :
    (parallelRowT src w dest dp sp).1 = parallelRow src w dest dp sp := by
  unfold parallelRowT parallelRow
  simp only [parallelLoopT_fst, parallelTail4T, parallelTail2T, parallelTail1T,
    apply_ite Prod.fst]

theorem parallelRowT_log (src dest : Mem) (w dp sp : Nat) (hw : w < 2 ^ 32) :
    (parallelRowT src w dest dp sp).2
      = (parallelLoopT src (sp + (w &&& notSeven) * 4 * 2) ⟨dest, dp, sp⟩).2
        ++ parallelTailLog w dp sp (w &&& notSeven) := by
  have s1 := parallel_stage8 src dest dp sp w hw
  have s2 := parallel_stage4 src dest dp sp w _ _ s1
  have s3 := parallel_stage2 src dest dp sp w _ _ s2
  unfold parallelRowT parallelTailLog
  simp only [parallelLoopT_fst, parallelTail4T, parallelTail2T, parallelTail1T,
    apply_ite Prod.fst, apply_ite Prod.snd]
  rw [s1.2.1, s1.2.2, s2.2.1, s2.2.2, s3.2.1, s3.2.2]
  simp only [List.append_assoc]

theorem tier_loaded (b : Prop) [Decidable b] (x n : Nat) (L : List Access) (a : Nat)
    (hx : x = 0 ∨ x = n) (hb : b ↔ x ≠ 0)
    (hL : loadedBytes L = List.range' a (8 * n)) :
    loadedBytes (if b then L else []) = List.range' a (8 * x) := by
  by_cases h : b
  · rw [if_pos h, hL]
    have : x = n := by
      rcases hx with h0 | h1
      · exact absurd h0 (hb.mp h)
      · exact h1
    rw [this]
  · rw [if_neg h]
    have : x = 0 := by
      by_contra h0
      exact h (hb.mpr h0)
    rw [this]
    rfl

theorem parallelTailLog_loaded (w dp sp c8 : Nat) :
    loadedBytes (parallelTailLog w dp sp c8)
      = List.range' (sp + 8 * c8) (8 * ((w &&& 4) + (w &&& 2) + (w &&& 1))) := by
  unfold parallelTailLog
  simp only [loadedBytes_append]
  have e4 := and_four_eq w
  have e2 := and_two_eq w
  have e1 := and_one_eq w
  rw [tier_loaded (w &&& 4 ≠ 0) (w &&& 4) 4 _ (sp + 8 * c8) (by omega) Iff.rfl
      (by simp only [loadedBytes, List.append_nil]; exact range'_join _ _ _ _ rfl),
    tier_loaded (w &&& 2 ≠ 0) (w &&& 2) 2 _ (sp + 8 * (c8 + (w &&& 4))) (by omega) Iff.rfl
      (by simp only [loadedBytes, List.append_nil]),
    tier_loaded (w &&& 1 ≠ 0) (w &&& 1) 1 _ (sp + 8 * (c8 + (w &&& 4) + (w &&& 2))) (by omega)
      Iff.rfl (by simp only [loadedBytes, List.append_nil]),
    range'_join _ _ _ _ (by omega), range'_join _ _ _ _ (by omega)]
  congr 1
  omega

theorem parallelRowT_loaded (src dest : Mem) (w dp sp : Nat) (hw : w < 2 ^ 32) :
    loadedBytes (parallelRowT src w dest dp sp).2 = List.range' sp (8 * w) := by
  rw [parallelRowT_log src dest w dp sp hw, loadedBytes_append, parallelTailLog_loaded]
  have hl := (parallelLoopT_log src dp sp (w / 8) 0 ⟨dest, dp, sp⟩ rfl rfl).1
  have e : sp + (w &&& notSeven) * 4 * 2 = sp + 8 * 0 + 64 * (w / 8) := by
    rw [and_notSeven w hw]; omega
  rw [e, hl, range'_join _ _ _ _ (by rw [and_notSeven w hw]; omega)]
  congr 1
  have := (width_tiers w hw).1
  rw [and_notSeven w hw] at this
  omega

theorem oldSchoolRowT_fst (src dest : Mem) (w dp sp : Nat) :
    (oldSchoolRowT src w dest dp sp).1 = oldSchoolRow src w dest dp sp := by
  unfold oldSchoolRowT oldSchoolRow
  simp only [oldSchoolLoopT_fst, oldSchoolTail2T, oldSchoolTail1T, apply_ite Prod.fst]

theorem oldSchool_stage4 (src dest : Mem) (dp sp w : Nat) (hw : w < 2 ^ 32) :
    RowAt src dest dp sp (w &&& notThree) 0
      (oldSchoolLoop src (sp + (w &&& notThree) * 4 * 2) ⟨dest, dp, sp⟩) := by
  have h1 := oldSchoolLoop_spec src dest dp sp (w / 4) 0 ⟨dest, dp, sp⟩
    (rowAt_start src dest dp sp)
  rw [and_notThree w hw]
  have e : sp + 4 * (w / 4) * 4 * 2 = sp + 8 * 0 + 32 * (w / 4) := by omega
  rw [e]
  rw [Nat.zero_add] at h1
  exact h1

theorem oldSchool_stage2 (src dest : Mem) (dp sp w c : Nat) (s : RowState)
    (h : RowAt src dest dp sp c 0 s) :
    RowAt src dest dp sp (c + (w &&& 2)) 0
      (if w &&& 2 ≠ 0 then oldSchoolTail2 src s else s) := by
  by_cases b : w &&& 2 ≠ 0
  · rw [if_pos b]
    have e : w &&& 2 = 2 := by
      have := and_two_eq w
      omega
    rw [e]
    exact oldSchoolTail2_spec _ _ _ _ _ _ h
  · rw [if_neg b]
    have e : w &&& 2 = 0 := by omega
    rw [e]
    exact h

theorem oldSchoolRowT_log (src dest : Mem) (w dp sp : Nat) (hw : w < 2 ^ 32) :
    (oldSchoolRowT src w dest dp sp).2
      = (oldSchoolLoopT src (sp + (w &&& notThree) * 4 * 2) ⟨dest, dp, sp⟩).2
        ++ oldSchoolTailLog w dp sp (w &&& notThree) := by
  have s1 := oldSchool_stage4 src dest dp sp w hw
  have s2 := oldSchool_stage2 src dest dp sp w _ _ s1
  unfold oldSchoolRowT oldSchoolTailLog
  simp only [oldSchoolLoopT_fst, oldSchoolTail2T, oldSchoolTail1T,
    apply_ite Prod.fst, apply_ite Prod.snd]
  rw [s1.2.1, s1.2.2, s2.2.1, s2.2.2]
  simp only [List.append_assoc]

theorem tier_stored (b : Prop) [Decidable b] (x n m : Nat) (L : List Access) (a : Nat)
    (hx : x = 0 ∨ x = n) (hb : b ↔ x ≠ 0)
    (hL : storedBytes L = List.range' a (m * n)) :
    storedBytes (if b then L else []) = List.range' a (m * x) := by
  by_cases h : b
  · rw [if_pos h, hL]
    have : x = n := by
      rcases hx with h0 | h1
      · exact absurd h0 (hb.mp h)
      · exact h1
    rw [this]
  · rw [if_neg h]
    have : x = 0 := by
      by_contra h0
      exact h (hb.mpr h0)
    rw [this]
    rfl

theorem oldSchoolTailLog_loaded (w dp sp c4 : Nat) :
    loadedBytes (oldSchoolTailLog w dp sp c4)
      = List.range' (sp + 8 * c4) (8 * ((w &&& 2) + (w &&& 1))) := by
  unfold oldSchoolTailLog
  simp only [loadedBytes_append]
  have e2 := and_two_eq w
  have e1 := and_one_eq w
  rw [tier_loaded (w &&& 2 ≠ 0) (w &&& 2) 2 _ (sp + 8 * c4) (by omega) Iff.rfl
      (by simp only [loadedBytes, List.append_nil]; exact range'_join _ _ _ _ rfl),
    tier_loaded (w &&& 1 ≠ 0) (w &&& 1) 1 _ (sp + 8 * (c4 + (w &&& 2))) (by omega)
      Iff.rfl (by simp only [loadedBytes, List.append_nil]),
    range'_join _ _ _ _ (by omega)]
  congr 1
  omega

theorem oldSchoolTailLog_stored (w dp sp c4 : Nat) :
    storedBytes (oldSchoolTailLog w dp sp c4)
      = List.range' (dp + 4 * c4) (4 * ((w &&& 2) + (w &&& 1))) := by
  unfold oldSchoolTailLog
  simp only [storedBytes_append]
  have e2 := and_two_eq w
  have e1 := and_one_eq w
  rw [tier_stored (w &&& 2 ≠ 0) (w &&& 2) 2 4 _ (dp + 4 * c4) (by omega) Iff.rfl
      (by simp only [storedBytes, List.append_nil]; exact range'_join _ _ _ _ rfl),
    tier_stored (w &&& 1 ≠ 0) (w &&& 1) 1 4 _ (dp + 4 * (c4 + (w &&& 2))) (by omega)
      Iff.rfl (by simp only [storedBytes, List.append_nil]),
    range'_join _ _ _ _ (by omega)]
  congr 1
  omega

theorem oldSchoolRowT_loaded (src dest : Mem) (w dp sp : Nat) (hw : w < 2 ^ 32) :
    loadedBytes (oldSchoolRowT src w dest dp sp).2 = List.range' sp (8 * w) := by
  rw [oldSchoolRowT_log src dest w dp sp hw, loadedBytes_append, oldSchoolTailLog_loaded]
  have hl := (oldSchoolLoopT_log src dp sp (w / 4) 0 ⟨dest, dp, sp⟩ rfl rfl).1
  have e : sp + (w &&& notThree) * 4 * 2 = sp + 8 * 0 + 32 * (w / 4) := by
    rw [and_notThree w hw]; omega
  rw [e, hl, range'_join _ _ _ _ (by rw [and_notThree w hw]; omega)]
  congr 1
  have := (width_tiers w hw).2
  rw [and_notThree w hw] at this
  omega

theorem oldSchoolRowT_stored (src dest : Mem) (w dp sp : Nat) (hw : w < 2 ^ 32) :
    storedBytes (oldSchoolRowT src w dest dp sp).2 = List.range' dp (4 * w) := by
  rw [oldSchoolRowT_log src dest w dp sp hw, storedBytes_append, oldSchoolTailLog_stored]
  have hl := (oldSchoolLoopT_log src dp sp (w / 4) 0 ⟨dest, dp, sp⟩ rfl rfl).2
  have e : sp + (w &&& notThree) * 4 * 2 = sp + 8 * 0 + 32 * (w / 4) := by
    rw [and_notThree w hw]; omega
  rw [e, hl, range'_join _ _ _ _ (by rw [and_notThree w hw]; omega)]
  congr 1
  have := (width_tiers w hw).2
  rw [and_notThree w hw] at this
  omega

theorem parallelRowsT_fst (src : Mem) (w ss ds : Nat) :
    ∀ (n : Nat) (dest : Mem) (dp sp : Nat),
      (parallelRowsT src w ss ds n dest dp sp).1 = parallelRows src w ss ds n dest dp sp := by
  intro n
  induction n with
  | zero => intro dest dp sp; rfl
  | succ n ih =>
    intro dest dp sp
    rw [parallelRowsT, parallelRows]
    simp only [ih, parallelRowT_fst]

theorem oldSchoolRowsT_fst (src : Mem) (w ss ds : Nat) :
    ∀ (n : Nat) (dest : Mem) (dp sp : Nat),
      (oldSchoolRowsT src w ss ds n dest dp sp).1 = oldSchoolRows src w ss ds n dest dp sp := by
  intro n
  induction n with
  | zero => intro dest dp sp; rfl
  | succ n ih =>
    intro dest dp sp
    rw [oldSchoolRowsT, oldSchoolRows]
    simp only [ih, oldSchoolRowT_fst]

theorem parallelRowsT_loaded_mem (src : Mem) (w ss ds : Nat) (hw : w < 2 ^ 32) :
    ∀ (n : Nat) (dest : Mem) (dp sp a : Nat),
      a ∈ loadedBytes (parallelRowsT src w ss ds n dest dp sp).2 →
      ∃ i, i < n ∧ sp + i * ss ≤ a ∧ a < sp + i * ss + 8 * w := by
  intro n
  induction n with
  | zero =>
    intro dest dp sp a h
    simp [parallelRowsT, loadedBytes] at h
  | succ n ih =>
    intro dest dp sp a h
    rw [parallelRowsT] at h
    simp only [loadedBytes_append, List.mem_append] at h
    rcases h with h | h
    · rw [parallelRowT_loaded src dest w dp sp hw, List.mem_range'_1] at h
      exact ⟨0, by omega, by omega, by omega⟩
    · obtain ⟨i, hi, h1, h2⟩ := ih _ _ _ _ h
      refine ⟨i + 1, by omega, ?_, ?_⟩ <;> rw [Nat.add_mul] <;> omega

theorem oldSchoolRowsT_loaded_mem (src : Mem) (w ss ds : Nat) (hw : w < 2 ^ 32) :
    ∀ (n : Nat) (dest : Mem) (dp sp a : Nat),
      a ∈ loadedBytes (oldSchoolRowsT src w ss ds n dest dp sp).2 →
      ∃ i, i < n ∧ sp + i * ss ≤ a ∧ a < sp + i * ss + 8 * w := by
  intro n
  induction n with
  | zero =>
    intro dest dp sp a h
    simp [oldSchoolRowsT, loadedBytes] at h
  | succ n ih =>
    intro dest dp sp a h
    rw [oldSchoolRowsT] at h
    simp only [loadedBytes_append, List.mem_append] at h
    rcases h with h | h
    · rw [oldSchoolRowT_loaded src dest w dp sp hw, List.mem_range'_1] at h
      exact ⟨0, by omega, by omega, by omega⟩
    · obtain ⟨i, hi, h1, h2⟩ := ih _ _ _ _ h
      refine ⟨i + 1, by omega, ?_, ?_⟩ <;> rw [Nat.add_mul] <;> omega

theorem oldSchoolRowsT_stored_mem (src : Mem) (w ss ds : Nat) (hw : w < 2 ^ 32) :
    ∀ (n : Nat) (dest : Mem) (dp sp a : Nat),
      a ∈ storedBytes (oldSchoolRowsT src w ss ds n dest dp sp).2 →
      ∃ i, i < n ∧ dp + i * ds ≤ a ∧ a < dp + i * ds + 4 * w := by
  intro n
  induction n with
  | zero =>
    intro dest dp sp a h
    simp [oldSchoolRowsT, storedBytes] at h
  | succ n ih =>
    intro dest dp sp a h
    rw [oldSchoolRowsT] at h
    simp only [storedBytes_append, List.mem_append] at h
    rcases h with h | h
    · rw [oldSchoolRowT_stored src dest w dp sp hw, List.mem_range'_1] at h
      exact ⟨0, by omega, by omega, by omega⟩
    · obtain ⟨i, hi, h1, h2⟩ := ih _ _ _ _ h
      refine ⟨i + 1, by omega, ?_, ?_⟩ <;> rw [Nat.add_mul] <;> omega

theorem row_inside (i n span a len : Nat) (hi : i < n) (hlen : len ≤ span)
    (ha : a < i * span + len) : a < n * span := by
  have : (i + 1) * span ≤ n * span := Nat.mul_le_mul_right _ hi
  rw [Nat.add_mul] at this
  omega

/-- In-bounds accesses of the scalar kernel, and in-bounds loads of the
vectorized kernel. -/
theorem accesses_inside (dest src : Mem) (width height srcSpan destSpan : Nat)
    (hsrc : width * 8 ≤ srcSpan) (hdest : width * 4 ≤ destSpan) (hint : srcSpan < 2 ^ 31) :
    (∀ a ∈ loadedBytes (DemoteImageOldSchoolT dest src width height srcSpan destSpan).2,
        a < height * srcSpan)
      ∧ (∀ a ∈ storedBytes (DemoteImageOldSchoolT dest src width height srcSpan destSpan).2,
        a < height * destSpan)
      ∧ (∀ a ∈ loadedBytes (DemoteImageInParallelT dest src width height srcSpan destSpan).2,
        a < height * srcSpan) := by
  have hw := width_lt width srcSpan hsrc hint
  refine ⟨?_, ?_, ?_⟩
  · intro a ha
    obtain ⟨i, hi, _, h2⟩ := oldSchoolRowsT_loaded_mem src width srcSpan destSpan hw _ _ _ _ _ ha
    exact row_inside i height srcSpan a (8 * width) hi (by omega) (by omega)
  · intro a ha
    obtain ⟨i, hi, _, h2⟩ := oldSchoolRowsT_stored_mem src width srcSpan destSpan hw _ _ _ _ _ ha
    exact row_inside i height destSpan a (4 * width) hi (by omega) (by omega)
  · intro a ha
    obtain ⟨i, hi, _, h2⟩ := parallelRowsT_loaded_mem src width srcSpan destSpan hw _ _ _ _ _ ha
    exact row_inside i height srcSpan a (8 * width) hi (by omega) (by omega)

theorem parallelT_single_row_log (dest src : Mem) (w ss ds : Nat) (hw : w < 8) :
    (DemoteImageInParallelT dest src w 1 ss ds).2 = parallelTailLog w 0 0 0 := by
  unfold DemoteImageInParallelT
  rw [parallelRowsT, parallelRowsT]
  simp only [List.append_nil]
  rw [parallelRowT_log _ _ _ _ _ (by omega)]
  have e : w &&& notSeven = 0 := by
    rw [and_notSeven w (by omega)]
    omega
  rw [e, parallelLoopT, if_neg (by simp)]
  rfl

theorem fuse_of_loads (m1 m2 : Mem) (a1 a2 : Nat) :
    _mm_shuffle_epi8 (_mm_loadu_si128 m1 a1) shuffler1
        = [(_mm_loadu_si128 m1 a1).getD 5 0, (_mm_loadu_si128 m1 a1).getD 3 0,
           (_mm_loadu_si128 m1 a1).getD 1 0, (_mm_loadu_si128 m1 a1).getD 7 0,
           (_mm_loadu_si128 m1 a1).getD 13 0, (_mm_loadu_si128 m1 a1).getD 11 0,
           (_mm_loadu_si128 m1 a1).getD 9 0, (_mm_loadu_si128 m1 a1).getD 15 0]
          ++ List.replicate 8 0
      ∧ _mm_shuffle_epi8 (_mm_loadu_si128 m2 a2) shuffler2
        = List.replicate 8 0 ++
          [(_mm_loadu_si128 m2 a2).getD 5 0, (_mm_loadu_si128 m2 a2).getD 3 0,
           (_mm_loadu_si128 m2 a2).getD 1 0, (_mm_loadu_si128 m2 a2).getD 7 0,
           (_mm_loadu_si128 m2 a2).getD 13 0, (_mm_loadu_si128 m2 a2).getD 11 0,
           (_mm_loadu_si128 m2 a2).getD 9 0, (_mm_loadu_si128 m2 a2).getD 15 0]
      ∧ _mm_or_si128 (_mm_shuffle_epi8 (_mm_loadu_si128 m1 a1) shuffler1)
          (_mm_shuffle_epi8 (_mm_loadu_si128 m2 a2) shuffler2)
        = bytes32 (demotePixel (le64 ((_mm_loadu_si128 m1 a1).take 8)))
          ++ bytes32 (demotePixel (le64 ((_mm_loadu_si128 m1 a1).drop 8)))
          ++ bytes32 (demotePixel (le64 ((_mm_loadu_si128 m2 a2).take 8)))
          ++ bytes32 (demotePixel (le64 ((_mm_loadu_si128 m2 a2).drop 8))) := by
  refine ⟨?_, ?_, ?_⟩
  · rw [loadu_eq, shuffle1_eq]
    rfl
  · rw [loadu_eq, shuffle2_eq]
    rfl
  · rw [le64_take, le64_drop, le64_take, le64_drop, scalar_chunk, scalar_chunk, scalar_chunk,
      scalar_chunk, loadu_eq, loadu_eq, shuffle1_eq, shuffle2_eq]
    simp [_mm_or_si128, chunk, List.range, List.range.loop, pix, Nat.add_assoc]

/-! ## The claims, continued -/

/-- C11. Singleton probe: from the state "no instance" the first call of
`CpuId::Instance()` constructs the snapshot, returns it and stores it, issuing
the constructor's queries; from the state holding `s` every call, on whatever
processor, returns `s`, issues no query and leaves the state as it is; so any
run of n+1 calls returns n+1 times the same snapshot with the queries of one
construction. -/
theorem Instance_singleton (cpu : Cpu) (u : Uninit) (s : CpuId)
    (h : CpuId.ctor cpu u = some s) (cpu2 : Cpu) (u2 : Uninit) (n : Nat) :
    CpuId.Instance cpu u none = some (s, some s, CpuId.ctorQueries cpu)
      ∧ CpuId.Instance cpu2 u2 (some s) = some (s, some s, [])
      ∧ CpuId.InstanceCalls cpu2 u2 n (some s) = some (List.replicate n s, some s, [])
      ∧ CpuId.InstanceCalls cpu u (n + 1) none
          = some (List.replicate (n + 1) s, some s, CpuId.ctorQueries cpu) := by
  refine ⟨Instance_first cpu u s h, rfl, InstanceCalls_later cpu2 u2 s n, ?_⟩
  rw [CpuId.InstanceCalls, Instance_first cpu u s h]
  simp only [InstanceCalls_later, List.append_nil]
  rfl

/-- C11 at the example processor: three calls return the same snapshot three
times, and only the first issues queries. -/
theorem Instance_singleton_witness :
    CpuId.ctor exampleCpu exampleUninit = some exampleSnapshot
      ∧ CpuId.Instance exampleCpu exampleUninit none
          = some (exampleSnapshot, some exampleSnapshot, CpuId.ctorQueries exampleCpu)
      ∧ CpuId.Instance plainCpu onesUninit (some exampleSnapshot)
          = some (exampleSnapshot, some exampleSnapshot, [])
      ∧ CpuId.InstanceCalls exampleCpu exampleUninit 3 none
          = some ([exampleSnapshot, exampleSnapshot, exampleSnapshot], some exampleSnapshot,
              CpuId.ctorQueries exampleCpu) :=
  have h := Instance_singleton exampleCpu exampleUninit exampleSnapshot (by decide) plainCpu
    onesUninit 2
  ⟨by decide, h.1, h.2.1, h.2.2.2⟩

/-- C12, the claim as stated fails. The snapshot constructed on a processor
that reports AVX (leaf-1 ECX bit 28) and not SSSE3 (bit 9) makes the dispatcher
select the vectorized kernel while `HasSSSE3` is false; so the gating query
being true does not imply `HasSSSE3` for every snapshot. -/
theorem avx_gate_without_ssse3 :
    CpuId.ctor avxOnlyCpu exampleUninit = some avxOnlySnapshot
      ∧ avxOnlySnapshot.HasAVX = true
      ∧ DemoteImage16To8 avxOnlySnapshot exampleDest exampleSrc 1 1 8 4
          = DemoteImageInParallel exampleDest exampleSrc 1 1 8 4
      ∧ avxOnlySnapshot.HasSSSE3 = false
      ∧ ¬ (∀ s : CpuId, s.HasAVX = true → s.HasSSSE3 = true) := by
  have hA : avxOnlySnapshot.HasAVX = true := by decide
  have hS : avxOnlySnapshot.HasSSSE3 = false := by decide
  refine ⟨by decide, hA, ?_, hS, ?_⟩
  · unfold DemoteImage16To8
    rw [if_pos hA]
  · intro h
    have := h avxOnlySnapshot hA
    rw [hS] at this
    exact absurd this (by decide)

/-- C12 as amended. The dispatcher gates on `HasAVX`, bit 28 of the cached
leaf-1 ECX: it selects the vectorized kernel when that bit is set and the
scalar kernel otherwise, and two snapshots that agree on bit 28 get the same
result; `HasSSSE3` is bit 9 of the same register, which the dispatcher does not
consult. -/
theorem gate_on_avx_bit (s t : CpuId) (dest src : Mem)
    (width height srcSpan destSpan : Nat) :
    (s.HasAVX = true → DemoteImage16To8 s dest src width height srcSpan destSpan
        = DemoteImageInParallel dest src width height srcSpan destSpan)
      ∧ (s.HasAVX = false → DemoteImage16To8 s dest src width height srcSpan destSpan
        = DemoteImageOldSchool dest src width height srcSpan destSpan)
      ∧ s.HasAVX = s.function_1_ecx.testBit 28
      ∧ s.HasSSSE3 = s.function_1_ecx.testBit 9
      ∧ (s.function_1_ecx.testBit 28 = t.function_1_ecx.testBit 28 →
          DemoteImage16To8 s dest src width height srcSpan destSpan
            = DemoteImage16To8 t dest src width height srcSpan destSpan) := by
  have hs : s.HasAVX = s.function_1_ecx.testBit 28 := and_shift_ne_zero _ _
  have ht : t.HasAVX = t.function_1_ecx.testBit 28 := and_shift_ne_zero _ _
  refine ⟨?_, ?_, hs, and_shift_ne_zero _ _, ?_⟩
  · intro h
    unfold DemoteImage16To8
    rw [if_pos h]
  · intro h
    unfold DemoteImage16To8
    rw [if_neg (by simp [h])]
  · intro h
    unfold DemoteImage16To8
    rw [hs, ht, h]

/-- C12 as amended, at a snapshot with AVX and without SSSE3 and one with
both: both select the vectorized kernel and get the same result. -/
theorem gate_on_avx_bit_witness :
    (avxOnlySnapshot.HasAVX = true ∧ avxOnlySnapshot.HasSSSE3 = false
        ∧ exampleSnapshot.HasSSSE3 = true)
      ∧ DemoteImage16To8 avxOnlySnapshot exampleDest exampleSrc 7 2 64 32
          = DemoteImageInParallel exampleDest exampleSrc 7 2 64 32
      ∧ DemoteImage16To8 avxOnlySnapshot exampleDest exampleSrc 7 2 64 32
          = DemoteImage16To8 exampleSnapshot exampleDest exampleSrc 7 2 64 32 :=
  have h := gate_on_avx_bit avxOnlySnapshot exampleSnapshot exampleDest exampleSrc 7 2 64 32
  ⟨by decide, h.1 (by decide), h.2.2.2.2 (by decide)⟩

/-- C13. Batch decomposition: for every width in the range of `int`, the
tier sizes (width & ~7), (width & 4), (width & 2), (width & 1) sum to width,
the first is a multiple of 8 and each of the others is 0 or its tier size; the
loop of the vectorized row loads exactly the source bytes of its first
(width & ~7) pixels, the row's accesses are those of the loop followed by the
4-, 2- and 1-pixel tails, each present iff its bit is set, and the source bytes
the row loads, in order, are exactly those of pixels 0..width-1, once each.
Likewise the scalar tiers (width & ~3) + (width & 2) + (width & 1) sum to
width, and the scalar row loads each source byte and stores each destination
byte of pixels 0..width-1 exactly once. -/
theorem batch_decomposition (src dest : Mem) (width dp sp : Nat) (hw : width < 2 ^ 31) :
    ((width &&& notSeven) + (width &&& 4) + (width &&& 2) + (width &&& 1) = width
        ∧ 8 ∣ (width &&& notSeven)
        ∧ (width &&& 4 = 0 ∨ width &&& 4 = 4) ∧ (width &&& 2 = 0 ∨ width &&& 2 = 2)
        ∧ (width &&& 1 = 0 ∨ width &&& 1 = 1))
      ∧ (loadedBytes (parallelLoopT src (sp + (width &&& notSeven) * 4 * 2) ⟨dest, dp, sp⟩).2
            = List.range' sp (8 * (width &&& notSeven))
        ∧ storedBytes (parallelLoopT src (sp + (width &&& notSeven) * 4 * 2) ⟨dest, dp, sp⟩).2
            = List.range' dp (4 * (width &&& notSeven))
        ∧ (parallelRowT src width dest dp sp).1 = parallelRow src width dest dp sp
        ∧ (parallelRowT src width dest dp sp).2
            = (parallelLoopT src (sp + (width &&& notSeven) * 4 * 2) ⟨dest, dp, sp⟩).2
              ++ parallelTailLog width dp sp (width &&& notSeven)
        ∧ loadedBytes (parallelRowT src width dest dp sp).2 = List.range' sp (8 * width))
      ∧ ((width &&& notThree) + (width &&& 2) + (width &&& 1) = width
        ∧ 4 ∣ (width &&& notThree))
      ∧ (loadedBytes (oldSchoolLoopT src (sp + (width &&& notThree) * 4 * 2) ⟨dest, dp, sp⟩).2
            = List.range' sp (8 * (width &&& notThree))
        ∧ (oldSchoolRowT src width dest dp sp).1 = oldSchoolRow src width dest dp sp
        ∧ (oldSchoolRowT src width dest dp sp).2
            = (oldSchoolLoopT src (sp + (width &&& notThree) * 4 * 2) ⟨dest, dp, sp⟩).2
              ++ oldSchoolTailLog width dp sp (width &&& notThree)
        ∧ loadedBytes (oldSchoolRowT src width dest dp sp).2 = List.range' sp (8 * width)
        ∧ storedBytes (oldSchoolRowT src width dest dp sp).2 = List.range' dp (4 * width)) := by
  have hw2 : width < 2 ^ 32 := by omega
  have e4 := and_four_eq width
  have e2 := and_two_eq width
  have e1 := and_one_eq width
  have e8 := and_notSeven width hw2
  have e3 := and_notThree width hw2
  have t := width_tiers width hw2
  have l8 := parallelLoopT_log src dp sp (width / 8) 0 ⟨dest, dp, sp⟩ rfl rfl
  have l4 := oldSchoolLoopT_log src dp sp (width / 4) 0 ⟨dest, dp, sp⟩ rfl rfl
  have a8 : sp + (width &&& notSeven) * 4 * 2 = sp + 64 * (width / 8) := by
    rw [e8]; omega
  have a4 : sp + (width &&& notThree) * 4 * 2 = sp + 32 * (width / 4) := by
    rw [e3]; omega
  have b8 : 64 * (width / 8) = 8 * (width &&& notSeven) := by rw [e8]; omega
  have c8 : 32 * (width / 8) = 4 * (width &&& notSeven) := by rw [e8]; omega
  have b4 : 32 * (width / 4) = 8 * (width &&& notThree) := by rw [e3]; omega
  simp only [Nat.mul_zero, Nat.add_zero] at l8 l4
  rw [← a8, b8, c8] at l8
  rw [← a4, b4] at l4
  refine ⟨⟨t.1, ⟨width / 8, e8⟩, by omega, by omega, by omega⟩, ⟨?_, ?_, ?_, ?_, ?_⟩,
    ⟨t.2, ⟨width / 4, e3⟩⟩, ⟨?_, ?_, ?_, ?_, ?_⟩⟩
  · exact l8.1
  · exact l8.2
  · exact parallelRowT_fst _ _ _ _ _
  · exact parallelRowT_log _ _ _ _ _ hw2
  · exact parallelRowT_loaded _ _ _ _ _ hw2
  · exact l4.1
  · exact oldSchoolRowT_fst _ _ _ _ _
  · exact oldSchoolRowT_log _ _ _ _ _ hw2
  · exact oldSchoolRowT_loaded _ _ _ _ _ hw2
  · exact oldSchoolRowT_stored _ _ _ _ _ hw2

/-- C13 at width 15 (tiers 8, 4, 2, 1). -/
theorem batch_decomposition_witness :
    15 < 2 ^ 31
      ∧ (15 &&& notSeven) + (15 &&& 4) + (15 &&& 2) + (15 &&& 1) = 15
      ∧ loadedBytes (parallelRowT exampleSrc 15 exampleDest 0 0).2 = List.range' 0 (8 * 15)
      ∧ loadedBytes (oldSchoolRowT exampleSrc 15 exampleDest 0 0).2 = List.range' 0 (8 * 15)
      ∧ storedBytes (oldSchoolRowT exampleSrc 15 exampleDest 0 0).2 = List.range' 0 (4 * 15) :=
  have h := batch_decomposition exampleSrc exampleDest 15 0 0 (by decide)
  ⟨by decide, h.1.1, h.2.1.2.2.2.2, h.2.2.2.2.2.2.1, h.2.2.2.2.2.2.2⟩

/-- C14. Shuffle-and-fuse: for 16-byte chunks c1, c2, shuffling c1 with
`shuffler1` gives the source bytes 5,3,1,7,13,11,9,15 of c1 in the low half and
zeros in the high half, shuffling c2 with `shuffler2` gives the same bytes of c2
in the high half and zeros in the low half, and the bytewise or of the two is
the 16 bytes (B,G,R,A) of the four pixels in order, which is the concatenation
of the scalar per-pixel results of the four pixel words. -/
theorem shuffle_and_fuse (c1 c2 : M128) (h1 : c1.length = 16) (h2 : c2.length = 16)
    (b1 : ∀ b ∈ c1, b < 256) (b2 : ∀ b ∈ c2, b < 256) :
    _mm_shuffle_epi8 c1 shuffler1
        = [c1.getD 5 0, c1.getD 3 0, c1.getD 1 0, c1.getD 7 0,
           c1.getD 13 0, c1.getD 11 0, c1.getD 9 0, c1.getD 15 0] ++ List.replicate 8 0
      ∧ _mm_shuffle_epi8 c2 shuffler2
        = List.replicate 8 0 ++
          [c2.getD 5 0, c2.getD 3 0, c2.getD 1 0, c2.getD 7 0,
           c2.getD 13 0, c2.getD 11 0, c2.getD 9 0, c2.getD 15 0]
      ∧ _mm_or_si128 (_mm_shuffle_epi8 c1 shuffler1) (_mm_shuffle_epi8 c2 shuffler2)
        = [c1.getD 5 0, c1.getD 3 0, c1.getD 1 0, c1.getD 7 0,
           c1.getD 13 0, c1.getD 11 0, c1.getD 9 0, c1.getD 15 0,
           c2.getD 5 0, c2.getD 3 0, c2.getD 1 0, c2.getD 7 0,
           c2.getD 13 0, c2.getD 11 0, c2.getD 9 0, c2.getD 15 0]
      ∧ _mm_or_si128 (_mm_shuffle_epi8 c1 shuffler1) (_mm_shuffle_epi8 c2 shuffler2)
        = bytes32 (demotePixel (le64 (c1.take 8))) ++ bytes32 (demotePixel (le64 (c1.drop 8)))
          ++ bytes32 (demotePixel (le64 (c2.take 8)))
          ++ bytes32 (demotePixel (le64 (c2.drop 8))) := by
  have h := fuse_of_loads (fun k => c1.getD k 0) (fun k => c2.getD k 0) 0 0
  rw [loadu_of_bytes c1 h1 b1, loadu_of_bytes c2 h2 b2] at h
  refine ⟨h.1, h.2.1, ?_, h.2.2⟩
  rw [h.1, h.2.1]
  simp [_mm_or_si128]

/-- C14 at two example chunks. -/
theorem shuffle_and_fuse_witness :
    (exampleChunk1.length = 16 ∧ exampleChunk2.length = 16
        ∧ (∀ b ∈ exampleChunk1, b < 256) ∧ (∀ b ∈ exampleChunk2, b < 256))
      ∧ _mm_or_si128 (_mm_shuffle_epi8 exampleChunk1 shuffler1)
          (_mm_shuffle_epi8 exampleChunk2 shuffler2)
        = [0x00, 0xAB, 0x12, 0xFF, 0x06, 0x04, 0x02, 0x08,
           0x15, 0x13, 0x11, 0x17, 0x1D, 0x1B, 0x19, 0x1F] :=
  ⟨by decide,
    (shuffle_and_fuse exampleChunk1 exampleChunk2 (by decide) (by decide) (by decide)
      (by decide)).2.2.1⟩

/-- C15, the code at a failing input. One pixel, one row, srcSpan 8 and
destSpan 4, so a destination buffer of 4 bytes: the accesses of
`DemoteImageInParallel` are an 8-byte load at source offset 0 and a 16-byte
store at destination offset 0, which covers the offsets 0..15; the byte at
offset 4, the first one behind the buffer, is 0xFF before the call and 0
after. -/
theorem vector_store_past_buffer :
    (1 * 8 ≤ 8 ∧ 1 * 4 ≤ 4)
      ∧ (DemoteImageInParallelT exampleDest exampleSrc 1 1 8 4).1
          = DemoteImageInParallel exampleDest exampleSrc 1 1 8 4
      ∧ (DemoteImageInParallelT exampleDest exampleSrc 1 1 8 4).2
          = [Access.load 0 8, Access.store 0 16]
      ∧ storedBytes (DemoteImageInParallelT exampleDest exampleSrc 1 1 8 4).2
          = List.range' 0 16
      ∧ ¬ (15 < 1 * 4)
      ∧ DemoteImageInParallel exampleDest exampleSrc 1 1 8 4 4 = 0
      ∧ exampleDest 4 = 0xFF := by
  have hl : (DemoteImageInParallelT exampleDest exampleSrc 1 1 8 4).2
      = [Access.load 0 8, Access.store 0 16] := by
    rw [parallelT_single_row_log _ _ _ _ _ (by norm_num)]
    decide
  refine ⟨by decide, parallelRowsT_fst _ _ _ _ _ _ _ _, hl, ?_, by decide, ?_, rfl⟩
  · rw [hl]
    rfl
  · rw [parallel_single_row _ _ _ _ _ (by norm_num)]
    decide

/-- C16, the code at a failing input. On a processor whose highest base leaf
is 0 and whose extended count is 0 the constructor leaves the cached registers
as the fresh object held them; with all-ones content `HasAVX`, `HasSSSE3`,
`HasAVX2` and `HasLAHF` are true. On a processor whose highest base leaf is 1
the same holds for the leaf-7 and the extended registers. -/
theorem absent_leaves_hold_garbage :
    (CpuId.ctor bareCpu onesUninit = some bareSnapshot
      ∧ bareSnapshot.numIds = 0 ∧ bareSnapshot.numExtendedIds = 0
      ∧ bareSnapshot.HasAVX = true ∧ bareSnapshot.HasSSSE3 = true
      ∧ bareSnapshot.HasAVX2 = true ∧ bareSnapshot.HasLAHF = true)
      ∧ (CpuId.ctor plainCpu onesUninit = some plainSnapshot
        ∧ plainSnapshot.numIds = 1 ∧ plainSnapshot.numExtendedIds = 0
        ∧ plainSnapshot.HasAVX2 = true ∧ plainSnapshot.HasLAHF = true) := by
  decide

end Sakura
